import Mathlib

/-!
# SolarViz: the solar-irradiation estimator of `src/app.js`

A shallow embedding of the formula core of `src/app.js` (lines 1-86) and of the
part of the ECMAScript `Date` object that it calls.

* JavaScript numbers holding calendar quantities (years, month indices, day
  numbers, milliseconds) are `Int`; numbers holding angles and irradiation are
  real numbers. The functions are first given with exact real arithmetic; the
  results stated on them are results about the formulas, not about the rounding
  of IEEE doubles. `getSolarIrradiation64` restates one function with binary64
  rounding.
* A `Date` built by `new Date(year, month, day)` is first represented by its
  local civil time in milliseconds (`JSDate`), with the host zone a parameter
  `tza`, the offset (local minus UTC, in ms) in force at a local civil time.
  `DateObject` is the full object: a UTC time value or `NaN`, in a host `Zone`
  with both modes of `LocalTZA`, and with the `Date` range limit.
-/

namespace SolarViz

/-! ## ECMAScript day and year arithmetic (ECMA-262, "Time Values and Time Range") -/

/-- The constant `msPerDay`; in `getDayOfYear` it is `oneDay = 1000 * 60 * 60 * 24`. -/
def msPerDay : Int := 1000 * 60 * 60 * 24

/-- ECMAScript `Day(t) = floor(t / msPerDay)`. -/
def Day (t : Int) : Int := t / msPerDay

/-- ECMAScript `TimeWithinDay(t) = t modulo msPerDay`. -/
def TimeWithinDay (t : Int) : Int := t % msPerDay

/-- ECMAScript `DaysInYear(y)`. -/
def DaysInYear (y : Int) : Int :=
  if y % 4 ≠ 0 then 365
  else if y % 100 ≠ 0 then 366
  else if y % 400 ≠ 0 then 365
  else 366

/-- ECMAScript `DayFromYear(y)`: the day number of January 1 of year `y`. -/
def DayFromYear (y : Int) : Int :=
  365 * (y - 1970) + (y - 1969) / 4 - (y - 1901) / 100 + (y - 1601) / 400

/-- The largest `y` with `DayFromYear y ≤ d`, for a day number `d`: an estimate from the
mean year length (146097 days in 400 years), corrected by at most one year. -/
def yearFromDay (d : Int) : Int :=
  let y := 1970 + (400 * d) / 146097
  if DayFromYear (y + 1) ≤ d then y + 1
  else if DayFromYear y ≤ d then y
  else y - 1

/-- ECMAScript `YearFromTime(t)`: the largest `y` such that `TimeFromYear(y) ≤ t`. -/
def YearFromTime (t : Int) : Int := yearFromDay (Day t)

/-- ECMAScript `InLeapYear(t)`: 1 in a leap year, else 0. -/
def InLeapYear (t : Int) : Int :=
  if DaysInYear (YearFromTime t) = 366 then 1 else 0

/-- ECMAScript `DayWithinYear(t) = Day(t) - DayFromYear(YearFromTime(t))`. -/
def DayWithinYear (t : Int) : Int := Day t - DayFromYear (YearFromTime t)

/-- ECMAScript `MonthFromTime(t)`, the table of the standard. -/
def MonthFromTime (t : Int) : Int :=
  let d := DayWithinYear t
  let l := InLeapYear t
  if d < 31 then 0
  else if d < 59 + l then 1
  else if d < 90 + l then 2
  else if d < 120 + l then 3
  else if d < 151 + l then 4
  else if d < 181 + l then 5
  else if d < 212 + l then 6
  else if d < 243 + l then 7
  else if d < 273 + l then 8
  else if d < 304 + l then 9
  else if d < 334 + l then 10
  else 11

/-- ECMAScript `DateFromTime(t)`, the table of the standard. -/
def DateFromTime (t : Int) : Int :=
  let d := DayWithinYear t
  let l := InLeapYear t
  let m := MonthFromTime t
  if m = 0 then d + 1
  else if m = 1 then d - 30
  else if m = 2 then d - 58 - l
  else if m = 3 then d - 89 - l
  else if m = 4 then d - 119 - l
  else if m = 5 then d - 150 - l
  else if m = 6 then d - 180 - l
  else if m = 7 then d - 211 - l
  else if m = 8 then d - 242 - l
  else if m = 9 then d - 272 - l
  else if m = 10 then d - 303 - l
  else d - 333 - l

/-- Day within the year of the first day of month `mn` (0-based), for a year with leap
flag `l`: the lower bounds of the `MonthFromTime` table. -/
def monthStart (mn l : Int) : Int :=
  if mn = 0 then 0
  else if mn = 1 then 31
  else if mn = 2 then 59 + l
  else if mn = 3 then 90 + l
  else if mn = 4 then 120 + l
  else if mn = 5 then 151 + l
  else if mn = 6 then 181 + l
  else if mn = 7 then 212 + l
  else if mn = 8 then 243 + l
  else if mn = 9 then 273 + l
  else if mn = 10 then 304 + l
  else 334 + l

/-- ECMAScript `MakeDay(year, month, date)`: with `ym = year + floor(month / 12)` and
`mn = month modulo 12`, the day number of the first of month `mn` of year `ym`, plus
`date - 1`. -/
def MakeDay (year month date : Int) : Int :=
  let ym := year + month / 12
  let mn := month % 12
  let l : Int := if DaysInYear ym = 366 then 1 else 0
  DayFromYear ym + monthStart mn l + date - 1

/-- ECMAScript `MakeDate(day, time) = day * msPerDay + time`. -/
def MakeDate (day time : Int) : Int := day * msPerDay + time

/-! ## The `Date` object as used by `src/app.js` -/

/-- A `Date` object, held as its local civil time in milliseconds: what the object reads
back when that local time exists in the host zone and lies in the `Date` range.
`DateObject` below drops both assumptions. -/
structure JSDate where
  localMs : Int
  deriving DecidableEq, Repr

/-- The constructor `new Date(year, month, day)`: a year argument in 0..99 means
1900 + year; the time of day is midnight. Without `TimeClip`: see `newDateObject`. -/
def newDate (year month day : Int) : JSDate :=
  let yr := if 0 ≤ year ∧ year ≤ 99 then 1900 + year else year
  ⟨MakeDate (MakeDay yr month day) 0⟩

/-- The method `Date.prototype.getFullYear`. -/
def JSDate.getFullYear (d : JSDate) : Int := YearFromTime d.localMs

/-- The method `Date.prototype.getDate`: the day of the month. -/
def JSDate.getDate (d : JSDate) : Int := DateFromTime d.localMs

/-- The method `Date.prototype.setDate(day)`: same year, month and time of day. Without
the round trip through UTC: see `DateObject.setDate`. -/
def JSDate.setDate (d : JSDate) (day : Int) : JSDate :=
  ⟨MakeDate (MakeDay (YearFromTime d.localMs) (MonthFromTime d.localMs) day)
    (TimeWithinDay d.localMs)⟩

/-- The time value of a `Date` (what `date - start` subtracts): ECMAScript
`UTC(t) = t - LocalTZA(t, false)`, with `tza` the zone offset at local time `t`. -/
def JSDate.valueOf (tza : Int → Int) (d : JSDate) : Int := d.localMs - tza d.localMs

/-! ## `src/app.js`, lines 8-14: day of the year -/

/-- The function `getDayOfYear(date)` of `src/app.js`. -/
def getDayOfYear (tza : Int → Int) (date : JSDate) : Int :=
  let start := newDate date.getFullYear 0 0
  let diff := date.valueOf tza - start.valueOf tza
  let oneDay : Int := 1000 * 60 * 60 * 24
  diff / oneDay

/-! ## `src/app.js`, lines 3-6 and 16-39: the solar geometry -/

/-- The constant `SOLAR_CONSTANT`, in W/m^2. -/
def SOLAR_CONSTANT : ℝ := 1367

/-- The constant `DEG_TO_RAD = Math.PI / 180`. -/
noncomputable def DEG_TO_RAD : ℝ := Real.pi / 180

/-- The function `getSolarDeclination(dayOfYear)` of `src/app.js`. -/
noncomputable def getSolarDeclination (dayOfYear : ℝ) : ℝ :=
  23.45 * DEG_TO_RAD * Real.sin (((360 / 365) * (dayOfYear - 81)) * DEG_TO_RAD)

/-- The function `getHourAngle(hours, minutes, longitude, timezone)` of `src/app.js`. -/
noncomputable def getHourAngle (hours minutes longitude timezone : ℝ) : ℝ :=
  let solarTime := hours + minutes / 60 + (4 * (longitude - 15 * timezone)) / 60
  (solarTime - 12) * 15 * DEG_TO_RAD

/-- The argument that `getSolarElevationAngle` hands to `Math.asin`. -/
noncomputable def elevationSine (latitude solarDeclination hourAngle : ℝ) : ℝ :=
  Real.sin (latitude * DEG_TO_RAD) * Real.sin solarDeclination +
    Real.cos (latitude * DEG_TO_RAD) * Real.cos solarDeclination * Real.cos hourAngle

/-- The function `getSolarElevationAngle(latitude, solarDeclination, hourAngle)` of
`src/app.js`, in exact real arithmetic; `Real.arcsin` stands for `Math.asin` (they agree
on [-1, 1], outside of which `Math.asin` is `NaN`). The source does not clamp the
argument, and the rounding of doubles, which can carry it above 1, is not modelled
here. -/
noncomputable def getSolarElevationAngle (latitude solarDeclination hourAngle : ℝ) : ℝ :=
  Real.arcsin (elevationSine latitude solarDeclination hourAngle)

/-- The function `getSolarIrradiation(solarElevationAngle)` of `src/app.js`, with the
exact sine; `getSolarIrradiation64` has the rounding of doubles. -/
noncomputable def getSolarIrradiation (solarElevationAngle : ℝ) : ℝ :=
  if solarElevationAngle ≤ 0 then 0
  else SOLAR_CONSTANT * Real.sin solarElevationAngle

/-! ## `src/app.js`, lines 41-86: the daily, monthly and yearly loops -/

/-- One pass of the body of the hour loop of `getAverageDailyIrradiation`. -/
noncomputable def hourStep (latitude longitude solarDeclination : ℝ)
    (totalIrradiation : ℝ) (hour : Nat) : ℝ :=
  let hourAngle := getHourAngle hour 0 longitude 0
  let solarElevationAngle := getSolarElevationAngle latitude solarDeclination hourAngle
  totalIrradiation + getSolarIrradiation solarElevationAngle

/-- The function `getAverageDailyIrradiation(latitude, longitude, date)` of `src/app.js`:
the loop `for (hour = 0; hour < 24; hour++)` is a left fold over `0, 1, ..., 23`. -/
noncomputable def getAverageDailyIrradiation (tza : Int → Int) (latitude longitude : ℝ)
    (date : JSDate) : ℝ :=
  let dayOfYear := getDayOfYear tza date
  let solarDeclination := getSolarDeclination dayOfYear
  let measurements : ℝ := 24
  let totalIrradiation :=
    (List.range 24).foldl (hourStep latitude longitude solarDeclination) 0
  totalIrradiation / measurements

/-- One pass of the body of the day loop of `getAverageMonthlyIrradiation`: the state is
the running total and the `Date` object that `setDate` mutates. -/
noncomputable def dayStep (tza : Int → Int) (latitude longitude : ℝ)
    (st : ℝ × JSDate) (day : Nat) : ℝ × JSDate :=
  let date := st.2.setDate day
  (st.1 + getAverageDailyIrradiation tza latitude longitude date, date)

/-- The value `daysInMonth = new Date(year, month + 1, 0).getDate()`. -/
def daysInMonth (year month : Int) : Int := (newDate year (month + 1) 0).getDate

/-- The function `getAverageMonthlyIrradiation(latitude, longitude, year, month)` of
`src/app.js`: the loop `for (day = 1; day <= daysInMonth; day++)` is a left fold over
`1, ..., daysInMonth`. -/
noncomputable def getAverageMonthlyIrradiation (tza : Int → Int) (latitude longitude : ℝ)
    (year month : Int) : ℝ :=
  let date := newDate year month 1
  let n := daysInMonth year month
  let st := (List.range' 1 n.toNat).foldl (dayStep tza latitude longitude) (0, date)
  st.1 / n

/-- A record `{ month, irradiation }` pushed onto `monthlyData`. -/
structure MonthlyRecord where
  month : String
  irradiation : ℝ

/-- The array `monthNames` of `getMonthlyIrradiationForYear`. -/
def monthNames : List String :=
  ["January", "February", "March", "April", "May", "June",
   "July", "August", "September", "October", "November", "December"]

/-- One pass of the body of the month loop of `getMonthlyIrradiationForYear`. -/
noncomputable def monthStep (tza : Int → Int) (latitude longitude : ℝ) (year : Int)
    (monthlyData : List MonthlyRecord) (month : Nat) : List MonthlyRecord :=
  let averageIrradiation := getAverageMonthlyIrradiation tza latitude longitude year month
  monthlyData ++ [MonthlyRecord.mk (monthNames.getD month "") averageIrradiation]

/-- The function `getMonthlyIrradiationForYear(latitude, longitude, year)` of
`src/app.js`: the loop `for (month = 0; month < 12; month++)` is a left fold over
`0, ..., 11`, each pass pushing one record. -/
noncomputable def getMonthlyIrradiationForYear (tza : Int → Int) (latitude longitude : ℝ)
    (year : Int) : List MonthlyRecord :=
  (List.range 12).foldl (monthStep tza latitude longitude year) []

/-! ## The calendar, stated independently of the `Date` arithmetic -/

/-- The Gregorian leap-year rule. -/
def isLeapYear (y : Int) : Bool :=
  (y % 4 == 0 && y % 100 != 0) || y % 400 == 0

/-- Number of days of month `m` (0 = January) of year `y` in the Gregorian calendar. -/
def calendarDaysInMonth (y : Int) (m : Nat) : Nat :=
  match m with
  | 1 => if isLeapYear y then 29 else 28
  | 3 | 5 | 8 | 10 => 30
  | _ => 31

/-- The 1-based ordinal of day `d` of month `m` (0 = January) of year `y`: the days of
the months before `m`, plus `d`. -/
def ordinalDay (y : Int) (m d : Nat) : Nat :=
  ((List.range m).map (calendarDaysInMonth y)).sum + d

/-- The year a `Date` built from the year argument `year` lies in. -/
def fullYear (year : Int) : Int :=
  if 0 ≤ year ∧ year ≤ 99 then 1900 + year else year

/-- A host time zone: `winter` ms ahead of UTC, and one hour more during daylight saving
time, taken here to run from local day number `dstFrom` up to `dstTo` (exclusive). -/
def dstZone (winter dstFrom dstTo : Int) (localMs : Int) : Int :=
  if dstFrom ≤ Day localMs ∧ Day localMs < dstTo then winter + 3600000 else winter

/-- The sample that the hour loop adds at hour `h`. -/
noncomputable def hourSample (latitude longitude solarDeclination : ℝ) (h : Nat) : ℝ :=
  getSolarIrradiation
    (getSolarElevationAngle latitude solarDeclination (getHourAngle h 0 longitude 0))

/-- The hourly sample as a function of a (possibly shifted) integer hour. -/
noncomputable def shiftedSample (latitude longitude solarDeclination : ℝ) (n : Int) : ℝ :=
  getSolarIrradiation
    (getSolarElevationAngle latitude solarDeclination (getHourAngle n 0 longitude 0))

/-- Sum of the clipped hour-angle cosines, times the solar constant: the daily total at
the equator, longitude 0, per unit of `cos` of the declination. -/
noncomputable def equatorTotal : ℝ :=
  ∑ h in Finset.range 24, 1367 * max 0 (Real.cos (getHourAngle (h : Nat) 0 0 0))

/-- A host zone whose offset from UTC is always less than a day. -/
def BoundedZone (tza : Int → Int) : Prop := ∀ t, -msPerDay < tza t ∧ tza t < msPerDay

/-! ## Binary64 arithmetic

The functions above compute with exact real numbers. Where a claim turns on the rounding
of IEEE 754 doubles, the function is restated with every operation rounded to the
nearest binary64 number. -/

/-- Exponent of the binade of a nonzero real `r`: the `e` with `2 ^ e ≤ |r| < 2 ^ (e + 1)`. -/
noncomputable def binade (r : ℝ) : Int := Int.log 2 |r|

/-- Spacing of the binary64 numbers in the binade of `r` (53 significant bits). -/
noncomputable def ulp (r : ℝ) : ℝ := (2 : ℝ) ^ (binade r - 52)

/-- Nearest integer to `q`, ties to the even one. -/
noncomputable def roundHalfEven (q : ℝ) : Int :=
  if q - ⌊q⌋ < 1 / 2 then ⌊q⌋
  else if 1 / 2 < q - ⌊q⌋ then ⌊q⌋ + 1
  else if Even ⌊q⌋ then ⌊q⌋ else ⌊q⌋ + 1

/-- Rounding of a real to the nearest binary64 number, ties to even (the IEEE 754 default
that JavaScript arithmetic uses); overflow and subnormal numbers are not modelled. -/
noncomputable def RN (r : ℝ) : ℝ := roundHalfEven (r / ulp r) * ulp r

/-- The library function `Math.sin`, taken as the correctly rounded sine (ECMA-262 leaves
its last bit to the implementation). -/
noncomputable def Math_sin (x : ℝ) : ℝ := RN (Real.sin x)

/-- The function `getSolarIrradiation` of `src/app.js` in binary64 arithmetic: the
product `SOLAR_CONSTANT * Math.sin(solarElevationAngle)` is rounded. -/
noncomputable def getSolarIrradiation64 (solarElevationAngle : ℝ) : ℝ :=
  if solarElevationAngle ≤ 0 then 0
  else RN (1367 * Math_sin solarElevationAngle)

/-- The binary64 number nearest to the decimal literal `1.57079632`. -/
def nearHalfPi : ℚ := 0x1921fb52713c02 / 2 ^ 52

/-- The binary64 number `Math.PI / 2`. -/
def halfPi : ℚ := 0x1921fb54442d18 / 2 ^ 52

/-! ## The `Date` object with its UTC time value

`JSDate` above holds a `Date` as its local civil time, which is what the object reads
back as long as that local time exists in the host zone and lies in the `Date` range.
Below, the `Date` object holds what ECMA-262 says it holds, a UTC time value or `NaN`,
and every method goes through `LocalTime`, `UTC` and `TimeClip`; the functions of
`src/app.js` that use `Date` are restated on it, with `none` for `NaN`. -/

/-- The host time zone: the implementation-defined abstract operation
`LocalTZA(t, isUTC)` of ECMA-262, the zone offset in ms in force at the UTC instant `t`
(`isUTC = true`) or at the local civil time `t` (`isUTC = false`; a skipped or repeated
local time is read with the offset before the transition). -/
structure Zone where
  LocalTZA : Int → Bool → Int

/-- ECMAScript `LocalTime(t) = t + LocalTZA(t, true)`. -/
def LocalTime (z : Zone) (t : Int) : Int := t + z.LocalTZA t true

/-- ECMAScript `UTC(t) = t - LocalTZA(t, false)`. -/
def UTC (z : Zone) (t : Int) : Int := t - z.LocalTZA t false

/-- ECMAScript `TimeClip`: a time beyond 8.64e15 ms from the epoch is `NaN` (`none`). -/
def TimeClip (t : Int) : Option Int :=
  if t.natAbs ≤ 8640000000000000 then some t else none

/-- A `Date` object: its time value, a UTC instant in ms, or `none` for an Invalid Date
(time value `NaN`). -/
structure DateObject where
  timeValue : Option Int
  deriving DecidableEq, Repr

/-- The constructor `new Date(year, month, day)`: a year argument in 0..99 means
1900 + year; local midnight of the day is converted to UTC and clipped. -/
def newDateObject (z : Zone) (year month day : Int) : DateObject :=
  let yr := if 0 ≤ year ∧ year ≤ 99 then 1900 + year else year
  ⟨TimeClip (UTC z (MakeDate (MakeDay yr month day) 0))⟩

/-- The method `Date.prototype.getFullYear`; `none` is `NaN`. -/
def DateObject.getFullYear (z : Zone) (d : DateObject) : Option Int :=
  d.timeValue.map (fun tv => YearFromTime (LocalTime z tv))

/-- The method `Date.prototype.getDate`; `none` is `NaN`. -/
def DateObject.getDate (z : Zone) (d : DateObject) : Option Int :=
  d.timeValue.map (fun tv => DateFromTime (LocalTime z tv))

/-- The method `Date.prototype.setDate(day)`: the local time of the object is read back
from its time value, the day of the month is replaced, and the result is converted to
UTC and clipped; an Invalid Date stays invalid. -/
def DateObject.setDate (z : Zone) (d : DateObject) (day : Int) : DateObject :=
  match d.timeValue with
  | none => ⟨none⟩
  | some tv =>
    let t := LocalTime z tv
    ⟨TimeClip (UTC z (MakeDate (MakeDay (YearFromTime t) (MonthFromTime t) day)
      (TimeWithinDay t)))⟩

/-- The function `getDayOfYear(date)` of `src/app.js` on a `DateObject`; `none` is
`NaN`. -/
def getDayOfYearHost (z : Zone) (date : DateObject) : Option Int :=
  match date.getFullYear z with
  | none => none
  | some y =>
    let start := newDateObject z y 0 0
    match date.timeValue, start.timeValue with
    | some a, some b =>
      let diff := a - b
      let oneDay : Int := 1000 * 60 * 60 * 24
      some (diff / oneDay)
    | _, _ => none

/-- The function `getAverageDailyIrradiation` of `src/app.js` on a `DateObject`; a `NaN`
day of the year makes every sample, and the result, `NaN`. -/
noncomputable def getAverageDailyIrradiationHost (z : Zone) (latitude longitude : ℝ)
    (date : DateObject) : Option ℝ :=
  (getDayOfYearHost z date).map (fun dayOfYear : Int =>
    let solarDeclination := getSolarDeclination dayOfYear
    let measurements : ℝ := 24
    let totalIrradiation :=
      (List.range 24).foldl (hourStep latitude longitude solarDeclination) 0
    totalIrradiation / measurements)

/-- One pass of the body of the day loop of `getAverageMonthlyIrradiation`, on a
`DateObject`: `date.setDate(day)`, then the daily average is added to the total. -/
noncomputable def dayStepHost (z : Zone) (latitude longitude : ℝ)
    (st : Option ℝ × DateObject) (day : Nat) : Option ℝ × DateObject :=
  let date := st.2.setDate z day
  (st.1.bind (fun total =>
      (getAverageDailyIrradiationHost z latitude longitude date).map (fun v => total + v)),
    date)

/-- The value `daysInMonth = new Date(year, month + 1, 0).getDate()`, on a `DateObject`. -/
def daysInMonthHost (z : Zone) (year month : Int) : Option Int :=
  (newDateObject z year (month + 1) 0).getDate z

/-- The function `getAverageMonthlyIrradiation` of `src/app.js` on `DateObject`s; with
`daysInMonth` `NaN` the loop body never runs and the result is `NaN`. -/
noncomputable def getAverageMonthlyIrradiationHost (z : Zone) (latitude longitude : ℝ)
    (year month : Int) : Option ℝ :=
  let date := newDateObject z year month 1
  match daysInMonthHost z year month with
  | none => none
  | some n =>
    let st := (List.range' 1 n.toNat).foldl (dayStepHost z latitude longitude) (some 0, date)
    st.1.map (fun totalIrradiation => totalIrradiation / n)

/-- Local midnight of day `d` of month `m` of year `y`, in ms. -/
def localMidnight (y : Int) (m d : Nat) : Int := MakeDate (MakeDay y m d) 0

/-- Local midnight of day `d` of month `m` of year `y` exists in the zone: converting it
to UTC and back gives the same local time (it is not skipped by a zone transition). -/
def MidnightExists (z : Zone) (y : Int) (m d : Nat) : Prop :=
  LocalTime z (UTC z (localMidnight y m d)) = localMidnight y m d

/-- Every offset of the zone is less than a day in size. -/
def Zone.Bounded (z : Zone) : Prop :=
  ∀ t b, -msPerDay < z.LocalTZA t b ∧ z.LocalTZA t b < msPerDay

/-- A zone `std` ms ahead of UTC that is one hour further ahead between the UTC instants
`startUtc` and `endUtc`. -/
def oneHourDst (std startUtc endUtc : Int) : Zone where
  LocalTZA t isUTC :=
    if isUTC then
      if startUtc ≤ t ∧ t < endUtc then std + 3600000 else std
    else
      if startUtc + std + 3600000 ≤ t ∧ t < endUtc + std + 3600000 then std + 3600000
      else std

/-- The zone America/New_York in 2024: UTC-5, daylight saving time from
10 March 07:00 UTC to 3 November 06:00 UTC. -/
def newYork2024 : Zone := oneHourDst (-18000000) 1710054000000 1730613600000

/-- The zone America/Havana in 2024: UTC-5, daylight saving time from
10 March 05:00 UTC (local midnight) to 3 November 05:00 UTC. -/
def havana2024 : Zone := oneHourDst (-18000000) 1710046800000 1730610000000

/-- The zone UTC. -/
def utcZone : Zone := ⟨fun _ _ => 0⟩

/-- The value of `getAverageDailyIrradiation` for a date whose day of the year is
`dayOfYear`. -/
noncomputable def dailyValue (latitude longitude : ℝ) (dayOfYear : Int) : ℝ :=
  let solarDeclination := getSolarDeclination dayOfYear
  let measurements : ℝ := 24
  let totalIrradiation :=
    (List.range 24).foldl (hourStep latitude longitude solarDeclination) 0
  totalIrradiation / measurements

/-- The days of the year that `getDayOfYear` returns for the `Date` object of the day
loop, after `setDate` is called with each day of `days` in turn. -/
def loopDays (z : Zone) (date : DateObject) : List Nat → List (Option Int)
  | [] => []
  | day :: days =>
    getDayOfYearHost z (date.setDate z day) :: loopDays z (date.setDate z day) days

/-- Adding a possibly `NaN` value to a possibly `NaN` total. -/
def addNaN (total value : Option ℝ) : Option ℝ :=
  total.bind (fun t => value.map (fun v => t + v))

/-! ## Day and year arithmetic -/

theorem DayFromYear_succ (y : Int) : DayFromYear (y + 1) = DayFromYear y + DaysInYear y := by
  unfold DayFromYear DaysInYear
  split_ifs <;> omega

theorem yearFromDay_spec (d : Int) :
    DayFromYear (yearFromDay d) ≤ d ∧ d < DayFromYear (yearFromDay d + 1) := by
  unfold yearFromDay
  simp only
  split_ifs with h1 h2
  · refine ⟨h1, ?_⟩
    unfold DayFromYear at *
    omega
  · exact ⟨h2, by omega⟩
  · constructor
    · unfold DayFromYear at *
      omega
    · simpa using (not_le.mp h2)

/-! ## Calendar lemmas -/

theorem yearFromDay_unique (y d : Int) (h1 : DayFromYear y ≤ d)
    (h2 : d < DayFromYear (y + 1)) : yearFromDay d = y := by
  have hs := yearFromDay_spec d
  have hmono : StrictMono DayFromYear := by
    apply strictMono_int_of_lt_succ
    intro n
    rw [DayFromYear_succ]
    unfold DaysInYear
    split_ifs <;> omega
  generalize yearFromDay d = z at hs
  rcases lt_trichotomy z y with h | h | h
  · have : DayFromYear (z + 1) ≤ DayFromYear y := hmono.monotone (by omega)
    omega
  · exact h
  · have : DayFromYear (y + 1) ≤ DayFromYear z := hmono.monotone (by omega)
    omega

theorem Day_MakeDate (d tw : Int) (h0 : 0 ≤ tw) (h1 : tw < msPerDay) :
    Day (MakeDate d tw) = d := by
  unfold Day MakeDate msPerDay at *
  omega

theorem TimeWithinDay_MakeDate (d tw : Int) (h0 : 0 ≤ tw) (h1 : tw < msPerDay) :
    TimeWithinDay (MakeDate d tw) = tw := by
  unfold TimeWithinDay MakeDate msPerDay at *
  omega

theorem DaysInYear_eq (y : Int) : DaysInYear y = if isLeapYear y then 366 else 365 := by
  unfold DaysInYear isLeapYear
  by_cases h4 : y % 4 = 0 <;> by_cases h100 : y % 100 = 0 <;> by_cases h400 : y % 400 = 0 <;>
    simp [h4, h100, h400] <;> omega

/-- The leap flag that `MakeDay` and `InLeapYear` compute. -/
theorem leapFlag_eq (y : Int) :
    (if DaysInYear y = 366 then (1 : Int) else 0) = if isLeapYear y then 1 else 0 := by
  rw [DaysInYear_eq]
  cases isLeapYear y <;> simp

theorem MakeDay_of_month_lt (y : Int) (m : Nat) (hm : m < 12) (d : Int) :
    MakeDay y m d
      = DayFromYear y + monthStart m (if isLeapYear y then 1 else 0) + d - 1 := by
  unfold MakeDay
  have h1 : ((m : Int)) / 12 = 0 := by omega
  have h2 : ((m : Int)) % 12 = m := by omega
  simp only [h1, h2, add_zero, leapFlag_eq]

/-- Day within the year of a calendar day: bounds. -/
theorem monthStart_bounds (y : Int) (m d : Nat) (hm : m < 12) (hd1 : 1 ≤ d)
    (hd : d ≤ calendarDaysInMonth y m) :
    0 ≤ monthStart m (if isLeapYear y then 1 else 0) + d - 1 ∧
      monthStart m (if isLeapYear y then 1 else 0) + d - 1 < DaysInYear y := by
  rw [DaysInYear_eq]
  interval_cases m <;> cases hl : isLeapYear y <;>
    simp [monthStart, calendarDaysInMonth, hl] at hd ⊢ <;> omega

theorem YearFromTime_civil (y : Int) (m d : Nat) (hm : m < 12) (hd1 : 1 ≤ d)
    (hd : d ≤ calendarDaysInMonth y m) (tw : Int) (h0 : 0 ≤ tw) (h1 : tw < msPerDay) :
    YearFromTime (MakeDate (MakeDay y m d) tw) = y := by
  unfold YearFromTime
  rw [Day_MakeDate _ _ h0 h1, MakeDay_of_month_lt y m hm]
  have hb := monthStart_bounds y m d hm hd1 hd
  apply yearFromDay_unique
  · omega
  · rw [DayFromYear_succ]; omega

theorem DayWithinYear_civil (y : Int) (m d : Nat) (hm : m < 12) (hd1 : 1 ≤ d)
    (hd : d ≤ calendarDaysInMonth y m) (tw : Int) (h0 : 0 ≤ tw) (h1 : tw < msPerDay) :
    DayWithinYear (MakeDate (MakeDay y m d) tw)
      = monthStart m (if isLeapYear y then 1 else 0) + d - 1 := by
  unfold DayWithinYear
  rw [YearFromTime_civil y m d hm hd1 hd tw h0 h1, Day_MakeDate _ _ h0 h1,
    MakeDay_of_month_lt y m hm]
  omega

theorem InLeapYear_civil (y : Int) (m d : Nat) (hm : m < 12) (hd1 : 1 ≤ d)
    (hd : d ≤ calendarDaysInMonth y m) (tw : Int) (h0 : 0 ≤ tw) (h1 : tw < msPerDay) :
    InLeapYear (MakeDate (MakeDay y m d) tw) = if isLeapYear y then 1 else 0 := by
  unfold InLeapYear
  rw [YearFromTime_civil y m d hm hd1 hd tw h0 h1, leapFlag_eq]

theorem MonthFromTime_civil (y : Int) (m d : Nat) (hm : m < 12) (hd1 : 1 ≤ d)
    (hd : d ≤ calendarDaysInMonth y m) (tw : Int) (h0 : 0 ≤ tw) (h1 : tw < msPerDay) :
    MonthFromTime (MakeDate (MakeDay y m d) tw) = m := by
  unfold MonthFromTime
  rw [DayWithinYear_civil y m d hm hd1 hd tw h0 h1, InLeapYear_civil y m d hm hd1 hd tw h0 h1]
  interval_cases m <;> cases hl : isLeapYear y <;>
    simp [monthStart, calendarDaysInMonth, hl] at hd ⊢ <;> omega

theorem DateFromTime_civil (y : Int) (m d : Nat) (hm : m < 12) (hd1 : 1 ≤ d)
    (hd : d ≤ calendarDaysInMonth y m) (tw : Int) (h0 : 0 ≤ tw) (h1 : tw < msPerDay) :
    DateFromTime (MakeDate (MakeDay y m d) tw) = d := by
  unfold DateFromTime
  rw [MonthFromTime_civil y m d hm hd1 hd tw h0 h1,
    DayWithinYear_civil y m d hm hd1 hd tw h0 h1, InLeapYear_civil y m d hm hd1 hd tw h0 h1]
  interval_cases m <;> cases hl : isLeapYear y <;>
    simp [monthStart, calendarDaysInMonth, hl] at hd ⊢ <;> omega

/-! ## Loops as sums -/

/-- A loop that adds `f h` to an accumulator for `h = 0, ..., n - 1` computes the sum. -/
theorem foldl_add_range (f : Nat → ℝ) (n : Nat) (a : ℝ) :
    (List.range n).foldl (fun acc h => acc + f h) a = a + ∑ h in Finset.range n, f h := by
  induction n with
  | zero => simp
  | succ k ih =>
    rw [List.range_succ, List.foldl_append, ih, Finset.sum_range_succ]
    simp [add_assoc]

theorem daily_eq_sum (tza : Int → Int) (latitude longitude : ℝ) (date : JSDate) :
    getAverageDailyIrradiation tza latitude longitude date
      = (∑ h in Finset.range 24,
          hourSample latitude longitude (getSolarDeclination (getDayOfYear tza date)) h) / 24 := by
  unfold getAverageDailyIrradiation
  have h := foldl_add_range
    (hourSample latitude longitude (getSolarDeclination (getDayOfYear tza date))) 24 0
  simp only [zero_add] at h
  simp only [← h]
  rfl

/-! ## The inverse-sine argument -/

theorem elevationSine_abs_le_one (latitude solarDeclination hourAngle : ℝ) :
    -1 ≤ elevationSine latitude solarDeclination hourAngle ∧
      elevationSine latitude solarDeclination hourAngle ≤ 1 := by
  unfold elevationSine
  have h1 := Real.sin_sq_add_cos_sq (latitude * DEG_TO_RAD)
  have h2 := Real.sin_sq_add_cos_sq solarDeclination
  have h3 := Real.cos_sq_le_one hourAngle
  set a := Real.sin (latitude * DEG_TO_RAD)
  set b := Real.cos (latitude * DEG_TO_RAD)
  set c := Real.sin solarDeclination
  set d := Real.cos solarDeclination
  set e := Real.cos hourAngle
  have he : -1 ≤ e ∧ e ≤ 1 := abs_le.mp (abs_le_one_iff_mul_self_le_one.mpr (by nlinarith))
  have hbd : -(b ^ 2 + d ^ 2) / 2 ≤ b * d * e ∧ b * d * e ≤ (b ^ 2 + d ^ 2) / 2 := by
    constructor <;> nlinarith [sq_nonneg (b - d), sq_nonneg (b + d), sq_nonneg (b * d),
      mul_nonneg (sq_nonneg (b - d)) (sub_nonneg.mpr he.2),
      mul_nonneg (sq_nonneg (b + d)) (sub_nonneg.mpr he.2),
      mul_nonneg (sq_nonneg (b - d)) (by linarith [he.1] : (0 : ℝ) ≤ e + 1),
      mul_nonneg (sq_nonneg (b + d)) (by linarith [he.1] : (0 : ℝ) ≤ e + 1)]
  constructor <;> nlinarith [sq_nonneg (a - c), sq_nonneg (a + c)]

theorem getSolarIrradiation_elevation (latitude solarDeclination hourAngle : ℝ) :
    getSolarIrradiation (getSolarElevationAngle latitude solarDeclination hourAngle)
      = if elevationSine latitude solarDeclination hourAngle ≤ 0 then 0
        else 1367 * elevationSine latitude solarDeclination hourAngle := by
  have hb := elevationSine_abs_le_one latitude solarDeclination hourAngle
  unfold getSolarIrradiation getSolarElevationAngle SOLAR_CONSTANT
  rw [Real.sin_arcsin hb.1 hb.2]
  simp only [Real.arcsin_nonpos]

theorem getSolarIrradiation_elevation_nonneg (latitude solarDeclination hourAngle : ℝ) :
    0 ≤ getSolarIrradiation (getSolarElevationAngle latitude solarDeclination hourAngle) := by
  rw [getSolarIrradiation_elevation]
  split_ifs with h
  · exact le_refl 0
  · push_neg at h
    linarith

/-! ## `Date` methods on calendar days -/

theorem newDate_eq (year month day : Int) :
    newDate year month day = ⟨MakeDate (MakeDay (fullYear year) month day) 0⟩ := rfl

theorem fullYear_not_two_digit (year : Int) :
    ¬ (0 ≤ fullYear year ∧ fullYear year ≤ 99) := by
  unfold fullYear
  split_ifs <;> omega

theorem fullYear_idem (year : Int) : fullYear (fullYear year) = fullYear year := by
  unfold fullYear
  split_ifs <;> omega

theorem calendarDaysInMonth_pos (y : Int) (m : Nat) : 0 < calendarDaysInMonth y m := by
  unfold calendarDaysInMonth
  split <;> try split_ifs
  all_goals omega

theorem calendarDaysInMonth_le (y : Int) (m : Nat) : calendarDaysInMonth y m ≤ 31 := by
  unfold calendarDaysInMonth
  split <;> try split_ifs
  all_goals omega

theorem msPerDay_pos : (0 : Int) < msPerDay := by unfold msPerDay; omega

/-- Day 0 of the next month is the last day of this month. -/
theorem MakeDay_next_month_zero (y : Int) (m : Nat) (hm : m < 12) :
    MakeDay y ((m : Int) + 1) 0 = MakeDay y m (calendarDaysInMonth y m) := by
  rw [MakeDay_of_month_lt y m hm]
  by_cases h11 : m = 11
  · subst h11
    unfold MakeDay
    have h1 : (((11 : Nat) : Int) + 1) / 12 = 1 := by decide
    have h2 : (((11 : Nat) : Int) + 1) % 12 = 0 := by decide
    simp only [h1, h2, DayFromYear_succ, DaysInYear_eq]
    cases hl : isLeapYear y <;> simp [monthStart, calendarDaysInMonth, hl] <;> omega
  · have hm1 : m + 1 < 12 := by omega
    have h := MakeDay_of_month_lt y (m + 1) hm1 0
    push_cast at h
    rw [h]
    interval_cases m <;> cases hl : isLeapYear y <;>
      simp [monthStart, calendarDaysInMonth, hl] <;> omega

theorem daysInMonth_eq (year : Int) (m : Nat) (hm : m < 12) :
    daysInMonth year m = calendarDaysInMonth (fullYear year) m := by
  unfold daysInMonth JSDate.getDate
  rw [newDate_eq, MakeDay_next_month_zero _ m hm]
  exact DateFromTime_civil _ m _ hm (calendarDaysInMonth_pos _ _) (le_refl _) 0 (le_refl 0)
    msPerDay_pos

theorem getFullYear_newDate (year : Int) (m d : Nat) (hm : m < 12) (hd1 : 1 ≤ d)
    (hd : d ≤ calendarDaysInMonth (fullYear year) m) :
    (newDate year m d).getFullYear = fullYear year := by
  unfold JSDate.getFullYear
  rw [newDate_eq]
  exact YearFromTime_civil _ m d hm hd1 hd 0 (le_refl 0) msPerDay_pos

theorem getDate_newDate (year : Int) (m d : Nat) (hm : m < 12) (hd1 : 1 ≤ d)
    (hd : d ≤ calendarDaysInMonth (fullYear year) m) :
    (newDate year m d).getDate = d := by
  unfold JSDate.getDate
  rw [newDate_eq]
  exact DateFromTime_civil _ m d hm hd1 hd 0 (le_refl 0) msPerDay_pos

/-- Within a month, `setDate` moves a `Date` to the requested day of the same month. -/
theorem setDate_newDate (year : Int) (m d : Nat) (hm : m < 12) (hd1 : 1 ≤ d)
    (hd : d ≤ calendarDaysInMonth (fullYear year) m) (day : Int) :
    (newDate year m d).setDate day = newDate year m day := by
  unfold JSDate.setDate
  rw [newDate_eq, newDate_eq]
  simp only
  rw [YearFromTime_civil _ m d hm hd1 hd 0 (le_refl 0) msPerDay_pos,
    MonthFromTime_civil _ m d hm hd1 hd 0 (le_refl 0) msPerDay_pos,
    TimeWithinDay_MakeDate _ 0 (le_refl 0) msPerDay_pos]

/-- State of the day loop of `getAverageMonthlyIrradiation` after day `k`. -/
theorem dayLoop_invariant (tza : Int → Int) (latitude longitude : ℝ) (year : Int) (m : Nat)
    (hm : m < 12) (k : Nat) (hk : k ≤ calendarDaysInMonth (fullYear year) m) :
    (List.range' 1 k).foldl (dayStep tza latitude longitude) (0, newDate year m 1)
      = (∑ d in Finset.Icc 1 k,
            getAverageDailyIrradiation tza latitude longitude (newDate year m (d : Nat)),
          newDate year m ((max 1 k : Nat) : Int)) := by
  induction k with
  | zero => simp
  | succ j ih =>
    have hj : j ≤ calendarDaysInMonth (fullYear year) m := by omega
    rw [List.range'_concat, List.foldl_append, ih hj]
    simp only [List.foldl_cons, List.foldl_nil, dayStep]
    have hset := setDate_newDate year m (max 1 j) hm (le_max_left 1 j)
      (by rcases Nat.eq_zero_or_pos j with h | h
          · subst h; simpa using calendarDaysInMonth_pos (fullYear year) m
          · rw [max_eq_right h]; exact hj) ((1 + 1 * j : Nat) : Int)
    rw [hset, Finset.sum_Icc_succ_top (by omega)]
    have e1 : 1 + 1 * j = j + 1 := by ring
    have e2 : max 1 (j + 1) = j + 1 := by omega
    rw [e1, e2]

/-- What `getDayOfYear` returns on a calendar day: the ordinal of the day, shifted by
the whole days in the difference of the zone offsets at the two local midnights. -/
theorem getDayOfYear_newDate (tza : Int → Int) (year : Int) (m d : Nat) (hm : m < 12)
    (hd1 : 1 ≤ d) (hd : d ≤ calendarDaysInMonth (fullYear year) m) :
    getDayOfYear tza (newDate year m d)
      = (ordinalDay (fullYear year) m d * msPerDay
          + (tza (newDate (fullYear year) 0 0).localMs - tza (newDate year m d).localMs))
        / msPerDay := by
  unfold getDayOfYear
  simp only [getFullYear_newDate year m d hm hd1 hd, JSDate.valueOf]
  have hmp : (1000 * 60 * 60 * 24 : Int) = msPerDay := rfl
  rw [hmp]
  congr 1
  have hs : (newDate (fullYear year) 0 0).localMs
      = (DayFromYear (fullYear year) - 1) * msPerDay := by
    rw [newDate_eq, fullYear_idem]
    have := MakeDay_of_month_lt (fullYear year) 0 (by omega) 0
    simp only [Nat.cast_zero] at this
    simp [MakeDate, this, monthStart]
  have hdt : (newDate year m d).localMs
      = (DayFromYear (fullYear year) + ordinalDay (fullYear year) m d - 1) * msPerDay := by
    rw [newDate_eq]
    simp only [MakeDate, MakeDay_of_month_lt _ m hm, add_zero]
    congr 1
    unfold ordinalDay
    interval_cases m <;> cases hl : isLeapYear (fullYear year) <;>
      simp [monthStart, calendarDaysInMonth, hl, List.range_succ] <;> omega
  set a := tza (newDate (fullYear year) 0 0).localMs
  set b := tza (newDate year m d).localMs
  rw [hs, hdt]
  ring

theorem getDayOfYear_near_ordinal (tza : Int → Int) (hz : BoundedZone tza) (year : Int)
    (m d : Nat) (hm : m < 12) (hd1 : 1 ≤ d) (hd : d ≤ calendarDaysInMonth (fullYear year) m) :
    (ordinalDay (fullYear year) m d : Int) - 2 ≤ getDayOfYear tza (newDate year m d) ∧
      getDayOfYear tza (newDate year m d) ≤ (ordinalDay (fullYear year) m d : Int) + 1 := by
  rw [getDayOfYear_newDate tza year m d hm hd1 hd]
  have h1 := hz (newDate (fullYear year) 0 0).localMs
  have h2 := hz (newDate year m d).localMs
  generalize tza (newDate (fullYear year) 0 0).localMs = a at h1
  generalize tza (newDate year m d).localMs = b at h2
  generalize (ordinalDay (fullYear year) m d : Int) = n
  unfold msPerDay at *
  omega

/-- The angle whose sine gives the declination. -/
theorem sin_ge_of_mem_third (θ : ℝ) (h1 : Real.pi / 3 ≤ θ) (h2 : θ ≤ 2 * Real.pi / 3) :
    √3 / 2 ≤ Real.sin θ := by
  rw [← Real.sin_pi_div_three]
  rcases le_total θ (Real.pi / 2) with h | h
  · exact Real.sin_le_sin_of_le_of_le_pi_div_two (by linarith [Real.pi_pos]) h h1
  · rw [← Real.sin_pi_sub θ]
    exact Real.sin_le_sin_of_le_of_le_pi_div_two (by linarith [Real.pi_pos]) (by linarith)
      (by linarith)

theorem sqrt_three_gt : (1.732 : ℝ) < √3 := by
  rw [show (1.732 : ℝ) = √(1.732 ^ 2) from (Real.sqrt_sq (by norm_num)).symm]
  exact Real.sqrt_lt_sqrt (by norm_num) (by norm_num)

theorem declination_summer (doy : Int) (h1 : 151 ≤ doy) (h2 : doy ≤ 183) :
    (0.354 : ℝ) ≤ getSolarDeclination doy ∧ getSolarDeclination doy ≤ 0.4093 := by
  unfold getSolarDeclination DEG_TO_RAD
  have hd1 : (151 : ℝ) ≤ doy := by exact_mod_cast h1
  have hd2 : (doy : ℝ) ≤ 183 := by exact_mod_cast h2
  have hpi1 := Real.pi_gt_d4
  have hpi2 := Real.pi_lt_d4
  have hs := sin_ge_of_mem_third (((360 / 365) * ((doy : ℝ) - 81)) * (Real.pi / 180))
    (by nlinarith) (by nlinarith)
  have hs1 := Real.sin_le_one (((360 / 365) * ((doy : ℝ) - 81)) * (Real.pi / 180))
  have h3 := sqrt_three_gt
  set s := Real.sin (((360 / 365) * ((doy : ℝ) - 81)) * (Real.pi / 180))
  constructor
  · nlinarith
  · nlinarith

theorem declination_winter (doy : Int) (h1 : 334 ≤ doy) (h2 : doy ≤ 367) :
    (-0.4093 : ℝ) ≤ getSolarDeclination doy ∧ getSolarDeclination doy ≤ -0.354 := by
  unfold getSolarDeclination DEG_TO_RAD
  have hd1 : (334 : ℝ) ≤ doy := by exact_mod_cast h1
  have hd2 : (doy : ℝ) ≤ 367 := by exact_mod_cast h2
  have hpi1 := Real.pi_gt_d4
  have hpi2 := Real.pi_lt_d4
  have hs := sin_ge_of_mem_third (((360 / 365) * ((doy : ℝ) - 81)) * (Real.pi / 180) - Real.pi)
    (by nlinarith) (by nlinarith)
  rw [Real.sin_sub_pi] at hs
  have hs1 := Real.neg_one_le_sin (((360 / 365) * ((doy : ℝ) - 81)) * (Real.pi / 180))
  have h3 := sqrt_three_gt
  set s := Real.sin (((360 / 365) * ((doy : ℝ) - 81)) * (Real.pi / 180))
  constructor
  · nlinarith
  · nlinarith

theorem cos_declination_bounds (δ : ℝ) (h1 : 0.354 ≤ |δ|) (h2 : |δ| ≤ 0.4093) :
    (0.9162 : ℝ) ≤ Real.cos δ ∧ Real.cos δ ≤ 0.9382 := by
  have hb := Real.cos_bound (show |δ| ≤ 1 by linarith)
  have hl := Real.one_sub_sq_div_two_le_cos (x := δ)
  have hsq : δ ^ 2 = |δ| ^ 2 := (sq_abs δ).symm
  have h0 : (0 : ℝ) ≤ |δ| := abs_nonneg δ
  set t := |δ|
  have ht1 : (0.354 : ℝ) ^ 2 ≤ t ^ 2 := by nlinarith
  have ht2 : t ^ 2 ≤ (0.4093 : ℝ) ^ 2 := by nlinarith
  constructor
  · nlinarith
  · have := (abs_le.mp hb).2
    have h4 : t ^ 4 = (t ^ 2) ^ 2 := by ring
    nlinarith

theorem sin_declination_lower (δ : ℝ) (h1 : 0.354 ≤ δ) (h2 : δ ≤ 0.4093) :
    (0.3429 : ℝ) ≤ Real.sin δ := by
  have hpi := Real.pi_gt_three
  have hm : Real.sin 0.354 ≤ Real.sin δ :=
    Real.sin_le_sin_of_le_of_le_pi_div_two (by linarith) (by linarith) h1
  have hc := Real.sin_gt_sub_cube (x := 0.354) (by norm_num) (by norm_num)
  have : (0.3429 : ℝ) ≤ 0.354 - 0.354 ^ 3 / 4 := by norm_num
  linarith

/-! ## Hour angles at longitude 0 -/

theorem getHourAngle_lon_zero (h : ℝ) : getHourAngle h 0 0 0 = (h - 12) * (Real.pi / 12) := by
  unfold getHourAngle DEG_TO_RAD
  ring

theorem cos_hourAngle_nonneg (h : Nat) (h1 : 6 ≤ h) (h2 : h ≤ 18) :
    0 ≤ Real.cos (getHourAngle h 0 0 0) := by
  rw [getHourAngle_lon_zero]
  have a1 : (6 : ℝ) ≤ h := by exact_mod_cast h1
  have a2 : (h : ℝ) ≤ 18 := by exact_mod_cast h2
  have hpi := Real.pi_pos
  apply Real.cos_nonneg_of_neg_pi_div_two_le_of_le <;> nlinarith

theorem cos_hourAngle_nonpos (h : Nat) (h1 : h ≤ 6 ∨ 18 ≤ h) (h2 : h < 24) :
    Real.cos (getHourAngle h 0 0 0) ≤ 0 := by
  rw [getHourAngle_lon_zero]
  have a0 : (0 : ℝ) ≤ h := Nat.cast_nonneg h
  have a2 : (h : ℝ) ≤ 24 := by exact_mod_cast h2.le
  have hpi := Real.pi_pos
  rcases h1 with h1 | h1
  · have a1 : (h : ℝ) ≤ 6 := by exact_mod_cast h1
    rw [← Real.cos_neg]
    apply Real.cos_nonpos_of_pi_div_two_le_of_le <;> nlinarith
  · have a1 : (18 : ℝ) ≤ h := by exact_mod_cast h1
    apply Real.cos_nonpos_of_pi_div_two_le_of_le <;> nlinarith

/-! ## The equator -/

theorem elevationSine_equator (δ H : ℝ) : elevationSine 0 δ H = Real.cos δ * Real.cos H := by
  unfold elevationSine
  simp

theorem equatorTotal_pos : 0 < equatorTotal := by
  unfold equatorTotal
  apply Finset.sum_pos'
  · intro i _
    exact mul_nonneg (by norm_num) (le_max_left _ _)
  · refine ⟨12, by simp, ?_⟩
    rw [getHourAngle_lon_zero]
    simp

theorem hourSample_equator (δ : ℝ) (hδ : 0 < Real.cos δ) (h : Nat) :
    hourSample 0 0 δ h = Real.cos δ * (1367 * max 0 (Real.cos (getHourAngle h 0 0 0))) := by
  unfold hourSample
  rw [getSolarIrradiation_elevation, elevationSine_equator]
  rcases le_or_lt (Real.cos (getHourAngle h 0 0 0)) 0 with hc | hc
  · rw [if_pos (mul_nonpos_of_nonneg_of_nonpos hδ.le hc), max_eq_left hc]
    ring
  · rw [if_neg (not_le.mpr (mul_pos hδ hc)), max_eq_right hc.le]
    ring

theorem daily_equator (tza : Int → Int) (date : JSDate)
    (hδ : 0 < Real.cos (getSolarDeclination (getDayOfYear tza date))) :
    getAverageDailyIrradiation tza 0 0 date
      = Real.cos (getSolarDeclination (getDayOfYear tza date)) * (equatorTotal / 24) := by
  rw [daily_eq_sum]
  simp only [hourSample_equator _ hδ]
  rw [← Finset.mul_sum]
  unfold equatorTotal
  ring

/-! ## Latitude 60 -/

theorem elevationSine_sixty (δ H : ℝ) :
    elevationSine 60 δ H = √3 / 2 * Real.sin δ + 1 / 2 * Real.cos δ * Real.cos H := by
  unfold elevationSine DEG_TO_RAD
  rw [show (60 : ℝ) * (Real.pi / 180) = Real.pi / 3 by ring, Real.sin_pi_div_three,
    Real.cos_pi_div_three]

theorem hourSample_sixty_summer (δ : ℝ) (h1 : 0.354 ≤ δ) (h2 : δ ≤ 0.4093) (h : Nat) :
    (if 6 ≤ h ∧ h ≤ 18 then (396 : ℝ) else 0) ≤ hourSample 60 0 δ h := by
  unfold hourSample
  split_ifs with hh
  · rw [getSolarIrradiation_elevation, elevationSine_sixty]
    have hs := sin_declination_lower δ h1 h2
    have hc := (cos_declination_bounds δ (by rw [abs_of_nonneg (by linarith)]; exact h1)
      (by rw [abs_of_nonneg (by linarith)]; exact h2)).1
    have hH := cos_hourAngle_nonneg h hh.1 hh.2
    have h3 := sqrt_three_gt
    have hp : 0 ≤ Real.cos δ * Real.cos (getHourAngle h 0 0 0) :=
      mul_nonneg (by linarith) hH
    have he : (0.29 : ℝ) ≤ √3 / 2 * Real.sin δ
        + 1 / 2 * Real.cos δ * Real.cos (getHourAngle h 0 0 0) := by nlinarith
    rw [if_neg (by linarith)]
    linarith
  · exact getSolarIrradiation_elevation_nonneg _ _ _

theorem hourSample_sixty_winter (δ : ℝ) (h1 : -0.4093 ≤ δ) (h2 : δ ≤ -0.354) (h : Nat)
    (h24 : h < 24) :
    hourSample 60 0 δ h ≤ (if 7 ≤ h ∧ h ≤ 17 then (288 : ℝ) else 0) := by
  unfold hourSample
  rw [getSolarIrradiation_elevation, elevationSine_sixty]
  have hs := sin_declination_lower (-δ) (by linarith) (by linarith)
  rw [Real.sin_neg] at hs
  have hc := cos_declination_bounds δ (by rw [abs_of_nonpos (by linarith)]; linarith)
    (by rw [abs_of_nonpos (by linarith)]; linarith)
  have h3 := sqrt_three_gt
  have hcH := Real.cos_le_one (getHourAngle h 0 0 0)
  have hsd : √3 / 2 * Real.sin δ ≤ -0.29 := by nlinarith
  by_cases hh : 7 ≤ h ∧ h ≤ 17
  · rw [if_pos hh]
    have : Real.cos δ * Real.cos (getHourAngle h 0 0 0) ≤ 1 := by nlinarith [hc.1, hc.2]
    split_ifs <;> linarith
  · rw [if_neg hh]
    have hH := cos_hourAngle_nonpos h (by omega) h24
    have : Real.cos δ * Real.cos (getHourAngle h 0 0 0) ≤ 0 :=
      mul_nonpos_of_nonneg_of_nonpos (by linarith [hc.1]) hH
    rw [if_pos (by linarith)]

theorem daily_sixty_summer (tza : Int → Int) (date : JSDate)
    (h1 : 0.354 ≤ getSolarDeclination (getDayOfYear tza date))
    (h2 : getSolarDeclination (getDayOfYear tza date) ≤ 0.4093) :
    (214 : ℝ) ≤ getAverageDailyIrradiation tza 60 0 date := by
  rw [daily_eq_sum]
  have := Finset.sum_le_sum (s := Finset.range 24)
    (fun h _ => hourSample_sixty_summer _ h1 h2 h)
  have e : ∑ h in Finset.range 24, (if 6 ≤ h ∧ h ≤ 18 then (396 : ℝ) else 0) = 13 * 396 := by
    simp [Finset.sum_range_succ]
    norm_num
  rw [e] at this
  linarith

theorem daily_sixty_winter (tza : Int → Int) (date : JSDate)
    (h1 : -0.4093 ≤ getSolarDeclination (getDayOfYear tza date))
    (h2 : getSolarDeclination (getDayOfYear tza date) ≤ -0.354) :
    getAverageDailyIrradiation tza 60 0 date ≤ 132 := by
  rw [daily_eq_sum]
  have := Finset.sum_le_sum (s := Finset.range 24)
    (fun h hh => hourSample_sixty_winter _ h1 h2 h (Finset.mem_range.mp hh))
  have e : ∑ h in Finset.range 24, (if 7 ≤ h ∧ h ≤ 17 then (288 : ℝ) else 0) = 11 * 288 := by
    simp [Finset.sum_range_succ]
    norm_num
  rw [e] at this
  linarith

theorem getHourAngle_shift (h longitude : ℝ) (k : Int) :
    getHourAngle h 0 (longitude + 15 * k) 0 = getHourAngle (h + k) 0 longitude 0 := by
  unfold getHourAngle
  ring

theorem shiftedSample_periodic (latitude longitude solarDeclination : ℝ) (n : Int) :
    shiftedSample latitude longitude solarDeclination (n + 24)
      = shiftedSample latitude longitude solarDeclination n := by
  unfold shiftedSample getSolarElevationAngle elevationSine
  have : getHourAngle ((n + 24 : Int) : ℝ) 0 longitude 0
      = getHourAngle (n : ℝ) 0 longitude 0 + 2 * Real.pi := by
    unfold getHourAngle DEG_TO_RAD
    push_cast
    ring
  rw [this, Real.cos_add_two_pi]

theorem sum_shift_succ (F : Int → ℝ) (hF : ∀ n, F (n + 24) = F n) (k : Int) :
    ∑ h in Finset.range 24, F ((h : Int) + (k + 1)) = ∑ h in Finset.range 24, F ((h : Int) + k) := by
  have h1 := Finset.sum_range_succ (fun h : Nat => F ((h : Int) + k)) 24
  have h2 := Finset.sum_range_succ' (fun h : Nat => F ((h : Int) + k)) 24
  have h3 : F (((24 : Nat) : Int) + k) = F (((0 : Nat) : Int) + k) := by
    have := hF k
    simpa [add_comm] using this
  have h4 : ∀ h : Nat, F (((h + 1 : Nat) : Int) + k) = F ((h : Int) + (k + 1)) := by
    intro h; congr 1; push_cast; ring
  simp only [h4] at h2
  linarith

theorem sum_shift (F : Int → ℝ) (hF : ∀ n, F (n + 24) = F n) (k : Int) :
    ∑ h in Finset.range 24, F ((h : Int) + k) = ∑ h in Finset.range 24, F (h : Int) := by
  induction k using Int.induction_on with
  | hz => simp
  | hp i ih => rw [sum_shift_succ F hF, ih]
  | hn i ih =>
    have := sum_shift_succ F hF (-(i : Int) - 1)
    simp only [sub_add_cancel] at this
    rw [← this, ih]

theorem hourSample_shift (latitude longitude solarDeclination : ℝ) (k : Int) (h : Nat) :
    hourSample latitude (longitude + 15 * k) solarDeclination h
      = shiftedSample latitude longitude solarDeclination ((h : Int) + k) := by
  unfold hourSample shiftedSample
  rw [getHourAngle_shift]
  push_cast
  rfl

theorem monthlyData_eq (tza : Int → Int) (latitude longitude : ℝ) (year : Int) :
    getMonthlyIrradiationForYear tza latitude longitude year
      = (List.range 12).map (fun i : Nat =>
          MonthlyRecord.mk (monthNames.getD i "")
            (getAverageMonthlyIrradiation tza latitude longitude year i)) := by
  simp [getMonthlyIrradiationForYear, List.range_succ, monthStep]

theorem monthly_eq_mean (tza : Int → Int) (latitude longitude : ℝ) (year : Int) (m : Nat)
    (hm : m < 12) :
    getAverageMonthlyIrradiation tza latitude longitude year m
      = (∑ d in Finset.Icc 1 (calendarDaysInMonth (fullYear year) m),
            getAverageDailyIrradiation tza latitude longitude (newDate year m (d : Nat)))
          / (calendarDaysInMonth (fullYear year) m : ℝ) := by
  unfold getAverageMonthlyIrradiation
  simp only
  rw [daysInMonth_eq year m hm, Int.toNat_ofNat,
    dayLoop_invariant tza latitude longitude year m hm _ (le_refl _)]
  simp only [Int.cast_natCast]

theorem monthly_ge (tza : Int → Int) (latitude longitude : ℝ) (year : Int) (m : Nat)
    (hm : m < 12) (L : ℝ)
    (h : ∀ d : Nat, 1 ≤ d → d ≤ calendarDaysInMonth (fullYear year) m →
      L ≤ getAverageDailyIrradiation tza latitude longitude (newDate year m d)) :
    L ≤ getAverageMonthlyIrradiation tza latitude longitude year m := by
  rw [monthly_eq_mean tza latitude longitude year m hm]
  have hN : (0 : ℝ) < (calendarDaysInMonth (fullYear year) m : ℝ) := by
    exact_mod_cast calendarDaysInMonth_pos (fullYear year) m
  have hl := Finset.sum_le_sum (s := Finset.Icc 1 (calendarDaysInMonth (fullYear year) m))
    (fun d hd => h d (Finset.mem_Icc.mp hd).1 (Finset.mem_Icc.mp hd).2)
  simp only [Finset.sum_const, Nat.card_Icc, add_tsub_cancel_right, nsmul_eq_mul] at hl
  rw [le_div_iff₀ hN]; linarith

theorem monthly_le (tza : Int → Int) (latitude longitude : ℝ) (year : Int) (m : Nat)
    (hm : m < 12) (U : ℝ)
    (h : ∀ d : Nat, 1 ≤ d → d ≤ calendarDaysInMonth (fullYear year) m →
      getAverageDailyIrradiation tza latitude longitude (newDate year m d) ≤ U) :
    getAverageMonthlyIrradiation tza latitude longitude year m ≤ U := by
  rw [monthly_eq_mean tza latitude longitude year m hm]
  have hN : (0 : ℝ) < (calendarDaysInMonth (fullYear year) m : ℝ) := by
    exact_mod_cast calendarDaysInMonth_pos (fullYear year) m
  have hu := Finset.sum_le_sum (s := Finset.Icc 1 (calendarDaysInMonth (fullYear year) m))
    (fun d hd => h d (Finset.mem_Icc.mp hd).1 (Finset.mem_Icc.mp hd).2)
  simp only [Finset.sum_const, Nat.card_Icc, add_tsub_cancel_right, nsmul_eq_mul] at hu
  rw [div_le_iff₀ hN]; linarith

/-! ## June and December 2024 -/

theorem boundedZone_const (c : Int) (h1 : -msPerDay < c) (h2 : c < msPerDay) :
    BoundedZone (fun _ => c) := fun _ => ⟨h1, h2⟩

theorem doy_june_2024 (tza : Int → Int) (hz : BoundedZone tza) (d : Nat) (hd1 : 1 ≤ d)
    (hd : d ≤ 30) :
    151 ≤ getDayOfYear tza (newDate 2024 5 d) ∧ getDayOfYear tza (newDate 2024 5 d) ≤ 183 := by
  have h := getDayOfYear_near_ordinal tza hz 2024 5 d (by decide) hd1 hd
  have ho : ordinalDay (fullYear 2024) 5 d = 152 + d := by
    simp [ordinalDay, List.range_succ, calendarDaysInMonth, fullYear, isLeapYear]
  rw [ho] at h
  have e : getDayOfYear tza (newDate 2024 ((5 : Nat) : Int) d)
      = getDayOfYear tza (newDate 2024 5 d) := rfl
  rw [e] at h
  generalize getDayOfYear tza (newDate 2024 5 d) = x at h ⊢
  push_cast at h
  omega

theorem doy_december_2024 (tza : Int → Int) (hz : BoundedZone tza) (d : Nat) (hd1 : 1 ≤ d)
    (hd : d ≤ 31) :
    334 ≤ getDayOfYear tza (newDate 2024 11 d) ∧
      getDayOfYear tza (newDate 2024 11 d) ≤ 367 := by
  have h := getDayOfYear_near_ordinal tza hz 2024 11 d (by decide) hd1 hd
  have ho : ordinalDay (fullYear 2024) 11 d = 335 + d := by
    simp [ordinalDay, List.range_succ, calendarDaysInMonth, fullYear, isLeapYear]
  rw [ho] at h
  have e : getDayOfYear tza (newDate 2024 ((11 : Nat) : Int) d)
      = getDayOfYear tza (newDate 2024 11 d) := rfl
  rw [e] at h
  generalize getDayOfYear tza (newDate 2024 11 d) = x at h ⊢
  push_cast at h
  omega

theorem equator_daily_bounds (tza : Int → Int) (date : JSDate)
    (h1 : 0.354 ≤ |getSolarDeclination (getDayOfYear tza date)|)
    (h2 : |getSolarDeclination (getDayOfYear tza date)| ≤ 0.4093) :
    0.9162 * (equatorTotal / 24) ≤ getAverageDailyIrradiation tza 0 0 date ∧
      getAverageDailyIrradiation tza 0 0 date ≤ 0.9382 * (equatorTotal / 24) := by
  have hc := cos_declination_bounds _ h1 h2
  rw [daily_equator tza date (by linarith [hc.1])]
  have hK : 0 < equatorTotal / 24 := div_pos equatorTotal_pos (by norm_num)
  constructor <;> nlinarith [hc.1, hc.2]

theorem equator_june_daily (tza : Int → Int) (hz : BoundedZone tza) (d : Nat) (hd1 : 1 ≤ d)
    (hd : d ≤ 30) :
    0.9162 * (equatorTotal / 24) ≤ getAverageDailyIrradiation tza 0 0 (newDate 2024 5 d) ∧
      getAverageDailyIrradiation tza 0 0 (newDate 2024 5 d)
        ≤ 0.9382 * (equatorTotal / 24) := by
  have hr := doy_june_2024 tza hz d hd1 hd
  have hδ := declination_summer _ hr.1 hr.2
  apply equator_daily_bounds
  · rw [abs_of_nonneg (le_trans (by norm_num) hδ.1)]; exact hδ.1
  · rw [abs_of_nonneg (le_trans (by norm_num) hδ.1)]; exact hδ.2

theorem equator_december_daily (tza : Int → Int) (hz : BoundedZone tza) (d : Nat)
    (hd1 : 1 ≤ d) (hd : d ≤ 31) :
    0.9162 * (equatorTotal / 24) ≤ getAverageDailyIrradiation tza 0 0 (newDate 2024 11 d) ∧
      getAverageDailyIrradiation tza 0 0 (newDate 2024 11 d)
        ≤ 0.9382 * (equatorTotal / 24) := by
  have hr := doy_december_2024 tza hz d hd1 hd
  have hδ := declination_winter _ hr.1 hr.2
  apply equator_daily_bounds
  · rw [abs_of_nonpos (le_trans hδ.2 (by norm_num))]
    exact le_neg_of_le_neg hδ.2
  · rw [abs_of_nonpos (le_trans hδ.2 (by norm_num))]
    exact neg_le.mp hδ.1

theorem equator_june_2024 (tza : Int → Int) (hz : BoundedZone tza) :
    0.9162 * (equatorTotal / 24) ≤ getAverageMonthlyIrradiation tza 0 0 2024 5 ∧
      getAverageMonthlyIrradiation tza 0 0 2024 5 ≤ 0.9382 * (equatorTotal / 24) :=
  ⟨monthly_ge tza 0 0 2024 5 (by decide) _ (fun d h1 h2 => (equator_june_daily tza hz d h1 h2).1),
    monthly_le tza 0 0 2024 5 (by decide) _
      (fun d h1 h2 => (equator_june_daily tza hz d h1 h2).2)⟩

theorem equator_december_2024 (tza : Int → Int) (hz : BoundedZone tza) :
    0.9162 * (equatorTotal / 24) ≤ getAverageMonthlyIrradiation tza 0 0 2024 11 ∧
      getAverageMonthlyIrradiation tza 0 0 2024 11 ≤ 0.9382 * (equatorTotal / 24) :=
  ⟨monthly_ge tza 0 0 2024 11 (by decide) _
      (fun d h1 h2 => (equator_december_daily tza hz d h1 h2).1),
    monthly_le tza 0 0 2024 11 (by decide) _
      (fun d h1 h2 => (equator_december_daily tza hz d h1 h2).2)⟩

theorem sixty_june_2024 (tza : Int → Int) (hz : BoundedZone tza) :
    214 ≤ getAverageMonthlyIrradiation tza 60 0 2024 5 :=
  monthly_ge tza 60 0 2024 5 (by decide) _ (fun d hd1 hd =>
    have hr := doy_june_2024 tza hz d hd1 hd
    have hδ := declination_summer _ hr.1 hr.2
    daily_sixty_summer tza (newDate 2024 5 d) hδ.1 hδ.2)

theorem sixty_december_2024 (tza : Int → Int) (hz : BoundedZone tza) :
    getAverageMonthlyIrradiation tza 60 0 2024 11 ≤ 132 :=
  monthly_le tza 60 0 2024 11 (by decide) _ (fun d hd1 hd =>
    have hr := doy_december_2024 tza hz d hd1 hd
    have hδ := declination_winter _ hr.1 hr.2
    daily_sixty_winter tza (newDate 2024 11 d) hδ.1 hδ.2)

/-! ## The zone-independent reading of `getDayOfYear` -/

/-- In a host zone with a fixed offset from UTC, `getDayOfYear` returns the 1-based
ordinal of a calendar day, a number between 1 and 366. -/
theorem getDayOfYear_fixed_offset (c year : Int) (m d : Nat) (hm : m < 12) (hd1 : 1 ≤ d)
    (hd : d ≤ calendarDaysInMonth (fullYear year) m) :
    getDayOfYear (fun _ => c) (newDate year m d) = ordinalDay (fullYear year) m d ∧
      1 ≤ ordinalDay (fullYear year) m d ∧ ordinalDay (fullYear year) m d ≤ 366 := by
  refine ⟨?_, ?_, ?_⟩
  · rw [getDayOfYear_newDate _ year m d hm hd1 hd]
    simp only [sub_self, add_zero]
    exact Int.mul_ediv_cancel _ (ne_of_gt msPerDay_pos)
  · unfold ordinalDay; omega
  · unfold ordinalDay
    interval_cases m <;> cases hl : isLeapYear (fullYear year) <;>
      simp [calendarDaysInMonth, hl, List.range_succ] at hd ⊢ <;> omega

theorem getDayOfYear_fixed_offset_witness :
    getDayOfYear (fun _ => 0) (newDate 2024 ((11 : Nat) : Int) ((31 : Nat) : Int))
      = ordinalDay (fullYear 2024) 11 31 ∧
      1 ≤ ordinalDay (fullYear 2024) 11 31 ∧ ordinalDay (fullYear 2024) 11 31 ≤ 366 :=
  getDayOfYear_fixed_offset 0 2024 11 31 (by decide) (by decide) (by decide)

/-! ## Rounding near 1 and at 1367 -/

theorem binade_eq (r : ℝ) (e : Int) (h1 : (2 : ℝ) ^ e ≤ r) (h2 : r < (2 : ℝ) ^ (e + 1)) :
    binade r = e := by
  have hr : 0 < r := lt_of_lt_of_le (zpow_pos (by norm_num) e) h1
  unfold binade
  rw [abs_of_pos hr]
  apply le_antisymm
  · have := (Int.lt_zpow_iff_log_lt (b := 2) (by norm_num) hr (x := e + 1)).mp
      (by exact_mod_cast h2)
    omega
  · exact (Int.zpow_le_iff_le_log (b := 2) (by norm_num) hr).mp (by exact_mod_cast h1)

theorem RN_below_one (r : ℝ) (h1 : 1 - 1 / 2 ^ 54 < r) (h2 : r < 1) : RN r = 1 := by
  have hb : binade r = -1 := binade_eq r (-1) (by norm_num; linarith) (by norm_num; linarith)
  have hu : ulp r = 1 / 2 ^ 53 := by
    unfold ulp; rw [hb]; norm_num [zpow_neg]
  unfold RN
  rw [hu]
  have hq : r / (1 / 2 ^ 53) = r * 2 ^ 53 := by field_simp
  rw [hq]
  have hfl : ⌊r * 2 ^ 53⌋ = 2 ^ 53 - 1 := by
    rw [Int.floor_eq_iff]
    push_cast
    constructor <;> nlinarith
  have : roundHalfEven (r * 2 ^ 53) = 2 ^ 53 := by
    unfold roundHalfEven
    rw [hfl]
    push_cast
    rw [if_neg (by nlinarith), if_pos (by nlinarith)]
  rw [this]
  norm_num

theorem RN_1367 : RN 1367 = 1367 := by
  have hb : binade 1367 = 10 := binade_eq 1367 10 (by norm_num) (by norm_num)
  have hu : ulp 1367 = 1 / 2 ^ 42 := by
    unfold ulp; rw [hb]; norm_num [zpow_neg]
  unfold RN
  rw [hu]
  have hq : (1367 : ℝ) / (1 / 2 ^ 42) = ((1367 * 2 ^ 42 : Int) : ℝ) := by norm_num
  rw [hq]
  have : roundHalfEven ((1367 * 2 ^ 42 : Int) : ℝ) = 1367 * 2 ^ 42 := by
    unfold roundHalfEven
    rw [Int.floor_intCast]
    simp
  rw [this]
  norm_num

theorem sin_near_half_pi (x : ℝ) (h1 : (1.5707963199 : ℝ) ≤ x) (h2 : x < Real.pi / 2) :
    1 - 1 / 2 ^ 54 < Real.sin x ∧ Real.sin x < 1 := by
  have hpi := Real.pi_lt_d20
  have hpi0 := Real.pi_gt_three
  constructor
  · have hc := Real.one_sub_sq_div_two_le_cos (x := Real.pi / 2 - x)
    rw [Real.cos_pi_div_two_sub] at hc
    have hd0 : 0 < Real.pi / 2 - x := by linarith
    have hd1 : Real.pi / 2 - x < 1 / 10 ^ 8 := by norm_num at hpi ⊢; linarith
    have : (Real.pi / 2 - x) ^ 2 < (1 / 10 ^ 8) ^ 2 := by nlinarith
    have e : ((1 : ℝ) / 10 ^ 8) ^ 2 / 2 < 1 / 2 ^ 54 := by norm_num
    linarith
  · rw [← Real.sin_pi_div_two]
    exact Real.strictMonoOn_sin ⟨by linarith, by linarith⟩ ⟨by linarith, le_refl _⟩ h2

theorem getSolarIrradiation64_near_half_pi (x : ℝ) (h1 : (1.5707963199 : ℝ) ≤ x)
    (h2 : x < Real.pi / 2) : getSolarIrradiation64 x = 1367 := by
  have hs := sin_near_half_pi x h1 h2
  unfold getSolarIrradiation64 Math_sin
  rw [if_neg (by linarith), RN_below_one _ hs.1 hs.2, mul_one, RN_1367]

theorem halfPi_lt : ((halfPi : ℚ) : ℝ) < Real.pi / 2 := by
  have hpi := Real.pi_gt_d20
  unfold halfPi
  norm_num at hpi ⊢
  linarith

/-! ## The day loop on `Date` objects with a UTC time value -/

theorem TimeClip_of_le (t : Int) (h1 : -8640000000000000 ≤ t) (h2 : t ≤ 8640000000000000) :
    TimeClip t = some t := by
  unfold TimeClip
  rw [if_pos (by omega)]

theorem fullYear_range (year : Int) (h1 : -271000 ≤ year) (h2 : year ≤ 275000) :
    -271000 ≤ fullYear year ∧ fullYear year ≤ 275000 := by
  unfold fullYear
  split_ifs <;> omega

theorem monthStart_range (m : Nat) (hm : m < 12) (l : Int) (h0 : 0 ≤ l) (h1 : l ≤ 1) :
    0 ≤ monthStart m l ∧ monthStart m l ≤ 335 := by
  interval_cases m <;> simp [monthStart] <;> omega

/-- Day numbers of the days of a year within the `Date` range, with a margin. -/
theorem MakeDay_range (y : Int) (h1 : -271000 ≤ y) (h2 : y ≤ 275000) (m : Nat) (hm : m < 12)
    (d : Int) (hd0 : 0 ≤ d) (hd : d ≤ 31) :
    -99900000 ≤ MakeDay y m d ∧ MakeDay y m d ≤ 99900000 := by
  rw [MakeDay_of_month_lt y m hm]
  have hs := monthStart_range m hm (if isLeapYear y then 1 else 0)
    (by split_ifs <;> omega) (by split_ifs <;> omega)
  generalize monthStart m (if isLeapYear y then 1 else 0) = s at hs
  unfold DayFromYear
  omega

theorem clip_local (z : Zone) (hz : z.Bounded) (D tw : Int) (h1 : -99900000 ≤ D)
    (h2 : D ≤ 99900000) (h3 : 0 ≤ tw) (h4 : tw < msPerDay) :
    TimeClip (UTC z (MakeDate D tw)) = some (UTC z (MakeDate D tw)) := by
  have hb := hz (MakeDate D tw) false
  apply TimeClip_of_le <;> unfold UTC <;>
    generalize z.LocalTZA (MakeDate D tw) false = o at hb <;>
    unfold MakeDate msPerDay at * <;> omega

theorem newDateObject_timeValue (z : Zone) (hz : z.Bounded) (year : Int) (hy1 : -271000 ≤ year)
    (hy2 : year ≤ 275000) (m : Nat) (hm : m < 12) (d : Nat) (hd : d ≤ 31) :
    (newDateObject z year m d).timeValue = some (UTC z (localMidnight (fullYear year) m d)) := by
  have hf := fullYear_range year hy1 hy2
  have hr := MakeDay_range (fullYear year) hf.1 hf.2 m hm d (by omega) (by omega)
  exact clip_local z hz _ 0 hr.1 hr.2 (le_refl 0) msPerDay_pos

theorem getFullYear_newDateObject (z : Zone) (hz : z.Bounded) (year : Int) (hy1 : -271000 ≤ year)
    (hy2 : year ≤ 275000) (m d : Nat) (hm : m < 12) (hd1 : 1 ≤ d)
    (hd : d ≤ calendarDaysInMonth (fullYear year) m)
    (hx : MidnightExists z (fullYear year) m d) :
    (newDateObject z year m d).getFullYear z = some (fullYear year) := by
  have h31 := calendarDaysInMonth_le (fullYear year) m
  unfold DateObject.getFullYear
  rw [newDateObject_timeValue z hz year hy1 hy2 m hm d (by omega)]
  simp only [Option.map_some']
  rw [hx]
  exact congrArg some (YearFromTime_civil _ m d hm hd1 hd 0 (le_refl 0) msPerDay_pos)

theorem getDate_newDateObject (z : Zone) (hz : z.Bounded) (year : Int) (hy1 : -271000 ≤ year)
    (hy2 : year ≤ 275000) (m d : Nat) (hm : m < 12) (hd1 : 1 ≤ d)
    (hd : d ≤ calendarDaysInMonth (fullYear year) m)
    (hx : MidnightExists z (fullYear year) m d) :
    (newDateObject z year m d).getDate z = some (d : Int) := by
  have h31 := calendarDaysInMonth_le (fullYear year) m
  unfold DateObject.getDate
  rw [newDateObject_timeValue z hz year hy1 hy2 m hm d (by omega)]
  simp only [Option.map_some']
  rw [hx]
  exact congrArg some (DateFromTime_civil _ m d hm hd1 hd 0 (le_refl 0) msPerDay_pos)

theorem newDateObject_eq (z : Zone) (year month day : Int) :
    newDateObject z year month day
      = ⟨TimeClip (UTC z (MakeDate (MakeDay (fullYear year) month day) 0))⟩ := rfl

theorem newDateObject_next_month_zero (z : Zone) (year : Int) (m : Nat) (hm : m < 12) :
    newDateObject z year ((m : Int) + 1) 0
      = newDateObject z year m (calendarDaysInMonth (fullYear year) m : Nat) := by
  rw [newDateObject_eq, newDateObject_eq, MakeDay_next_month_zero (fullYear year) m hm]

theorem daysInMonthHost_eq (z : Zone) (hz : z.Bounded) (year : Int) (hy1 : -271000 ≤ year)
    (hy2 : year ≤ 275000) (m : Nat) (hm : m < 12)
    (hx : MidnightExists z (fullYear year) m (calendarDaysInMonth (fullYear year) m)) :
    daysInMonthHost z year m = some ((calendarDaysInMonth (fullYear year) m : Nat) : Int) := by
  unfold daysInMonthHost
  rw [newDateObject_next_month_zero z year m hm]
  exact getDate_newDateObject z hz year hy1 hy2 m _ hm (calendarDaysInMonth_pos _ _) (le_refl _) hx

/-- Within a month, at a local midnight that exists, `setDate` gives the `Date` that the
constructor gives for the requested day. -/
theorem setDate_newDateObject (z : Zone) (hz : z.Bounded) (year : Int) (hy1 : -271000 ≤ year)
    (hy2 : year ≤ 275000) (m d : Nat) (hm : m < 12) (hd1 : 1 ≤ d)
    (hd : d ≤ calendarDaysInMonth (fullYear year) m)
    (hx : MidnightExists z (fullYear year) m d) (day : Int) :
    (newDateObject z year m d).setDate z day = newDateObject z year m day := by
  have h31 := calendarDaysInMonth_le (fullYear year) m
  unfold DateObject.setDate
  rw [newDateObject_timeValue z hz year hy1 hy2 m hm d (by omega)]
  simp only
  rw [hx]
  unfold localMidnight
  rw [YearFromTime_civil _ m d hm hd1 hd 0 (le_refl 0) msPerDay_pos,
    MonthFromTime_civil _ m d hm hd1 hd 0 (le_refl 0) msPerDay_pos,
    TimeWithinDay_MakeDate _ 0 (le_refl 0) msPerDay_pos]
  rfl

theorem getDayOfYearHost_isSome (z : Zone) (hz : z.Bounded) (year : Int) (hy1 : -271000 ≤ year)
    (hy2 : year ≤ 275000) (m d : Nat) (hm : m < 12) (hd1 : 1 ≤ d)
    (hd : d ≤ calendarDaysInMonth (fullYear year) m)
    (hx : MidnightExists z (fullYear year) m d) :
    (getDayOfYearHost z (newDateObject z year m d)).isSome = true := by
  have h31 := calendarDaysInMonth_le (fullYear year) m
  have hf := fullYear_range year hy1 hy2
  unfold getDayOfYearHost
  rw [getFullYear_newDateObject z hz year hy1 hy2 m d hm hd1 hd hx]
  simp only
  have hs := newDateObject_timeValue z hz (fullYear year) hf.1 hf.2 0 (by omega) 0 (by omega)
  simp only [Nat.cast_zero] at hs
  rw [newDateObject_timeValue z hz year hy1 hy2 m hm d (by omega), hs]
  rfl

theorem dailyHost_isSome (z : Zone) (hz : z.Bounded) (latitude longitude : ℝ) (year : Int)
    (hy1 : -271000 ≤ year) (hy2 : year ≤ 275000) (m d : Nat) (hm : m < 12) (hd1 : 1 ≤ d)
    (hd : d ≤ calendarDaysInMonth (fullYear year) m)
    (hx : MidnightExists z (fullYear year) m d) :
    (getAverageDailyIrradiationHost z latitude longitude (newDateObject z year m d)).isSome = true := by
  unfold getAverageDailyIrradiationHost
  rw [Option.isSome_map']
  exact getDayOfYearHost_isSome z hz year hy1 hy2 m d hm hd1 hd hx

/-- State of the day loop after day `k`, when the local midnights of the days 1..k
exist. -/
theorem dayLoopHost_invariant (z : Zone) (hz : z.Bounded) (latitude longitude : ℝ) (year : Int)
    (hy1 : -271000 ≤ year) (hy2 : year ≤ 275000) (m : Nat) (hm : m < 12)
    (hx : ∀ d : Nat, 1 ≤ d → d ≤ calendarDaysInMonth (fullYear year) m →
      MidnightExists z (fullYear year) m d)
    (k : Nat) (hk : k ≤ calendarDaysInMonth (fullYear year) m) :
    (List.range' 1 k).foldl (dayStepHost z latitude longitude) (some 0, newDateObject z year m 1)
      = (some (∑ d in Finset.Icc 1 k,
            (getAverageDailyIrradiationHost z latitude longitude
              (newDateObject z year m (d : Nat))).getD 0),
          newDateObject z year m ((max 1 k : Nat) : Int)) := by
  induction k with
  | zero => simp
  | succ j ih =>
    have hj : j ≤ calendarDaysInMonth (fullYear year) m := by omega
    have hpos := calendarDaysInMonth_pos (fullYear year) m
    rw [List.range'_concat, List.foldl_append, ih hj]
    simp only [List.foldl_cons, List.foldl_nil, dayStepHost]
    have hmax : 1 ≤ max 1 j ∧ max 1 j ≤ calendarDaysInMonth (fullYear year) m := by
      constructor
      · exact le_max_left 1 j
      · rcases Nat.eq_zero_or_pos j with h | h
        · subst h; simpa using hpos
        · rw [max_eq_right h]; exact hj
    have hset := setDate_newDateObject z hz year hy1 hy2 m (max 1 j) hm hmax.1 hmax.2
      (hx _ hmax.1 hmax.2) ((1 + 1 * j : Nat) : Int)
    have e1 : 1 + 1 * j = j + 1 := by ring
    have e2 : max 1 (j + 1) = j + 1 := by omega
    rw [hset, Finset.sum_Icc_succ_top (by omega), e1, e2]
    have hs := dailyHost_isSome z hz latitude longitude year hy1 hy2 m (j + 1) hm (by omega) hk
      (hx _ (by omega) hk)
    obtain ⟨v, hv⟩ := Option.isSome_iff_exists.mp hs
    push_cast at hv ⊢
    simp [hv]

theorem monthlyHost_eq_mean (z : Zone) (hz : z.Bounded) (latitude longitude : ℝ) (year : Int)
    (hy1 : -271000 ≤ year) (hy2 : year ≤ 275000) (m : Nat) (hm : m < 12)
    (hx : ∀ d : Nat, 1 ≤ d → d ≤ calendarDaysInMonth (fullYear year) m →
      MidnightExists z (fullYear year) m d) :
    getAverageMonthlyIrradiationHost z latitude longitude year m
      = some ((∑ d in Finset.Icc 1 (calendarDaysInMonth (fullYear year) m),
            (getAverageDailyIrradiationHost z latitude longitude
              (newDateObject z year m (d : Nat))).getD 0)
          / (calendarDaysInMonth (fullYear year) m : ℝ)) := by
  have hpos := calendarDaysInMonth_pos (fullYear year) m
  unfold getAverageMonthlyIrradiationHost
  simp only
  rw [daysInMonthHost_eq z hz year hy1 hy2 m hm (hx _ hpos (le_refl _))]
  simp only [Int.toNat_ofNat]
  rw [dayLoopHost_invariant z hz latitude longitude year hy1 hy2 m hm hx _ (le_refl _)]
  simp only [Option.map_some', Int.cast_natCast]

theorem oneHourDst_bounded (std startUtc endUtc : Int) (h1 : -82800000 < std)
    (h2 : std < 82800000) : (oneHourDst std startUtc endUtc).Bounded := by
  intro t b
  unfold oneHourDst msPerDay
  cases b <;> simp only <;> split_ifs <;> omega

theorem newYork2024_march_midnights (d : Nat) (hd1 : 1 ≤ d)
    (hd : d ≤ calendarDaysInMonth (fullYear 2024) 2) :
    MidnightExists newYork2024 (fullYear 2024) 2 d := by
  have h31 : calendarDaysInMonth (fullYear 2024) 2 = 31 := by decide
  rw [h31] at hd
  unfold MidnightExists
  interval_cases d <;> decide

/-- The day loop, read through the days of the year it feeds to the daily average. -/
theorem foldl_dayStepHost (z : Zone) (latitude longitude : ℝ) (days : List Nat) :
    ∀ (total : Option ℝ) (date : DateObject),
      (days.foldl (dayStepHost z latitude longitude) (total, date)).1
        = ((loopDays z date days).map (Option.map (dailyValue latitude longitude))).foldl
            addNaN total := by
  induction days with
  | nil => intro total date; rfl
  | cons day days ih =>
    intro total date
    simp only [List.foldl_cons, loopDays, List.map_cons]
    rw [← ih]
    rfl

theorem foldl_addNaN_some (vs : List ℝ) :
    ∀ a : ℝ, (vs.map some).foldl addNaN (some a) = some (a + vs.sum) := by
  induction vs with
  | nil => intro a; simp
  | cons v vs ih =>
    intro a
    simp only [List.map_cons, List.foldl_cons, List.sum_cons]
    have : addNaN (some a) (some v) = some (a + v) := rfl
    rw [this, ih, add_assoc]

theorem sum_Icc_eq_list (f : Nat → ℝ) (n : Nat) :
    ∑ d in Finset.Icc 1 n, f d = ((List.range' 1 n).map f).sum := by
  induction n with
  | zero => simp
  | succ k ih =>
    rw [Finset.sum_Icc_succ_top (by omega), ih, List.range'_concat]
    simp [add_comm]

/-! ### March 2024 in America/Havana -/

theorem havana_daysInMonth : daysInMonthHost havana2024 2024 2 = some 31 := by decide

theorem havana_loopDays :
    loopDays havana2024 (newDateObject havana2024 2024 2 1) (List.range' 1 31)
      = (List.range' 61 31).map (fun k : Nat => some (k : Int)) := by
  decide

theorem havana_freshDays :
    (List.range' 1 31).map
        (fun d : Nat => getDayOfYearHost havana2024 (newDateObject havana2024 2024 2 d))
      = ((List.range' 61 10) ++ (List.range' 70 21)).map (fun k : Nat => some (k : Int)) := by
  decide

theorem dailyValue_eq_sum (latitude longitude : ℝ) (k : Int) :
    dailyValue latitude longitude k
      = (∑ h in Finset.range 24, hourSample latitude longitude (getSolarDeclination k) h)
        / 24 := by
  unfold dailyValue
  have h := foldl_add_range (hourSample latitude longitude (getSolarDeclination k)) 24 0
  simp only [zero_add] at h
  simp only [← h]
  rfl

theorem cos_declination_pos (k : Int) : 0 < Real.cos (getSolarDeclination k) := by
  have hpi := Real.pi_gt_three
  have hpi4 := Real.pi_lt_d2
  have hs := Real.sin_le_one (((360 / 365) * ((k : ℝ) - 81)) * DEG_TO_RAD)
  have hs' := Real.neg_one_le_sin (((360 / 365) * ((k : ℝ) - 81)) * DEG_TO_RAD)
  apply Real.cos_pos_of_mem_Ioo
  unfold getSolarDeclination
  set s := Real.sin (((360 / 365) * ((k : ℝ) - 81)) * DEG_TO_RAD)
  unfold DEG_TO_RAD
  constructor <;> nlinarith

theorem dailyValue_equator (k : Int) :
    dailyValue 0 0 k = Real.cos (getSolarDeclination k) * (equatorTotal / 24) := by
  rw [dailyValue_eq_sum]
  simp only [hourSample_equator _ (cos_declination_pos k)]
  rw [← Finset.mul_sum]
  unfold equatorTotal
  ring

theorem cos_declination_70_lt_91 :
    Real.cos (getSolarDeclination (70 : Int)) < Real.cos (getSolarDeclination (91 : Int)) := by
  have hpi := Real.pi_gt_three
  have hpi4 := Real.pi_lt_d2
  have e70 : getSolarDeclination (70 : Int)
      = -(23.45 * DEG_TO_RAD * Real.sin ((360 / 365) * 11 * DEG_TO_RAD)) := by
    unfold getSolarDeclination
    rw [← mul_neg, ← Real.sin_neg]
    congr 2
    push_cast
    ring
  have e91 : getSolarDeclination (91 : Int)
      = 23.45 * DEG_TO_RAD * Real.sin ((360 / 365) * 10 * DEG_TO_RAD) := by
    unfold getSolarDeclination
    congr 2
    push_cast
    ring
  rw [e70, e91, Real.cos_neg]
  have hD : 0 < DEG_TO_RAD := by unfold DEG_TO_RAD; positivity
  have hD2 : DEG_TO_RAD < 0.02 := by unfold DEG_TO_RAD; linarith
  have hsin : Real.sin ((360 / 365) * 10 * DEG_TO_RAD)
      < Real.sin ((360 / 365) * 11 * DEG_TO_RAD) :=
    Real.strictMonoOn_sin ⟨by nlinarith, by nlinarith⟩ ⟨by nlinarith, by nlinarith⟩
      (by nlinarith)
  have h0 : 0 ≤ Real.sin ((360 / 365) * 10 * DEG_TO_RAD) :=
    Real.sin_nonneg_of_nonneg_of_le_pi (by nlinarith) (by nlinarith)
  have h1 := Real.sin_le_one ((360 / 365) * 11 * DEG_TO_RAD)
  apply Real.cos_lt_cos_of_nonneg_of_le_pi
  · exact mul_nonneg (by nlinarith) h0
  · nlinarith
  · exact mul_lt_mul_of_pos_left hsin (by nlinarith)

theorem havana_monthly :
    getAverageMonthlyIrradiationHost havana2024 0 0 2024 2
      = some (((List.range' 61 31).map (fun k : Nat => dailyValue 0 0 (k : Int))).sum / 31) := by
  unfold getAverageMonthlyIrradiationHost
  simp only [havana_daysInMonth]
  rw [foldl_dayStepHost]
  have e : (31 : Int).toNat = 31 := rfl
  rw [e, havana_loopDays, List.map_map]
  have e2 : (Option.map (dailyValue 0 0) ∘ fun k : Nat => some (k : Int))
      = some ∘ (fun k : Nat => dailyValue 0 0 (k : Int)) := rfl
  rw [e2, ← List.map_map, foldl_addNaN_some]
  simp

theorem havana_claimed_mean :
    ∑ d in Finset.Icc 1 31,
        (getAverageDailyIrradiationHost havana2024 0 0 (newDateObject havana2024 2024 2 (d : Nat))).getD 0
      = ((List.range' 61 10 ++ List.range' 70 21).map
          (fun k : Nat => dailyValue 0 0 (k : Int))).sum := by
  rw [sum_Icc_eq_list]
  have e : (List.range' 1 31).map (fun d : Nat =>
        (getAverageDailyIrradiationHost havana2024 0 0 (newDateObject havana2024 2024 2 (d : Nat))).getD 0)
      = ((List.range' 1 31).map
          (fun d : Nat => getDayOfYearHost havana2024 (newDateObject havana2024 2024 2 d))).map
          (fun o : Option Int => (o.map (dailyValue 0 0)).getD 0) := by
    rw [List.map_map]
    rfl
  rw [e, havana_freshDays, List.map_map]
  rfl

/-! ## The claims -/

/-- Claim C1: for every latitude, longitude and year, `getMonthlyIrradiationForYear`
returns exactly 12 records, whose month names are January to December in calendar order
and whose irradiation at index `i` is `getAverageMonthlyIrradiation` at month `i`. -/
theorem getMonthlyIrradiationForYear_records (tza : Int → Int) (latitude longitude : ℝ)
    (year : Int) :
    (getMonthlyIrradiationForYear tza latitude longitude year).length = 12 ∧
    (getMonthlyIrradiationForYear tza latitude longitude year).map MonthlyRecord.month
      = ["January", "February", "March", "April", "May", "June",
         "July", "August", "September", "October", "November", "December"] ∧
    (getMonthlyIrradiationForYear tza latitude longitude year).map MonthlyRecord.irradiation
      = (List.range 12).map
          (fun i : Nat => getAverageMonthlyIrradiation tza latitude longitude year i) := by
  simp [getMonthlyIrradiationForYear, List.range_succ, monthStep, monthNames]

/-- Claim C4, at a failing input: in a host zone five hours behind UTC that observes
daylight saving time from 11 March to 3 November 2024 (local midnights), `getDayOfYear`
returns 182 for 1 July 2024, whose ordinal is 183, and returns 70 both for 10 March and
for 11 March; with the same offset and no daylight saving time it returns 183. -/
theorem getDayOfYear_dst_off_by_one :
    getDayOfYear (dstZone (-18000000) (MakeDay 2024 2 11) (MakeDay 2024 10 4))
        (newDate 2024 6 1) = 182 ∧
    ordinalDay 2024 6 1 = 183 ∧
    getDayOfYear (dstZone (-18000000) (MakeDay 2024 2 11) (MakeDay 2024 10 4))
        (newDate 2024 2 10) = 70 ∧
    getDayOfYear (dstZone (-18000000) (MakeDay 2024 2 11) (MakeDay 2024 10 4))
        (newDate 2024 2 11) = 70 ∧
    getDayOfYear (fun _ => -18000000) (newDate 2024 6 1) = 183 := by
  decide

/-- Claim C5, amended: over the reals, with the exact sine, `getSolarIrradiation x = 0`
for every `x ≤ 0`, and for `0 < x < y ≤ pi/2` the function equals `1367 * sin` at both
points and is strictly smaller at `x`. -/
theorem getSolarIrradiation_zero_and_increasing (x y : ℝ) :
    (x ≤ 0 → getSolarIrradiation x = 0) ∧
    (0 < x → x < y → y ≤ Real.pi / 2 →
      getSolarIrradiation x = 1367 * Real.sin x ∧
      getSolarIrradiation y = 1367 * Real.sin y ∧
      getSolarIrradiation x < getSolarIrradiation y) := by
  constructor
  · intro hx
    simp [getSolarIrradiation, hx]
  · intro hx hxy hy
    have hx' : ¬ x ≤ 0 := not_le.mpr hx
    have hy' : ¬ y ≤ 0 := not_le.mpr (hx.trans hxy)
    have hsin : Real.sin x < Real.sin y :=
      Real.strictMonoOn_sin ⟨by linarith [Real.pi_pos], by linarith⟩
        ⟨by linarith [Real.pi_pos], hy⟩ hxy
    simp only [getSolarIrradiation, hx', hy', if_false, SOLAR_CONSTANT]
    refine ⟨trivial, trivial, ?_⟩
    linarith

theorem getSolarIrradiation_zero_and_increasing_witness :
    getSolarIrradiation (-1) = 0 ∧ getSolarIrradiation (1 / 2) < getSolarIrradiation 1 :=
  ⟨(getSolarIrradiation_zero_and_increasing (-1) 0).1 (by norm_num),
   ((getSolarIrradiation_zero_and_increasing (1 / 2) 1).2 (by norm_num) (by norm_num)
      (by linarith [Real.pi_gt_three])).2.2⟩

/-- Claim C5, counterexample: in binary64 arithmetic the two numbers 1.57079632 and
`Math.PI / 2` satisfy 0 < x < y ≤ pi/2, yet `getSolarIrradiation` returns 1367 at both,
so it is not strictly smaller at `x`. -/
theorem getSolarIrradiation64_not_strict :
    (0 : ℝ) < (nearHalfPi : ℚ) ∧ ((nearHalfPi : ℚ) : ℝ) < (halfPi : ℚ) ∧
      ((halfPi : ℚ) : ℝ) ≤ Real.pi / 2 ∧
      getSolarIrradiation64 (nearHalfPi : ℚ) = 1367 ∧
      getSolarIrradiation64 (halfPi : ℚ) = 1367 ∧
      ¬ getSolarIrradiation64 (nearHalfPi : ℚ) < getSolarIrradiation64 (halfPi : ℚ) := by
  have hy := halfPi_lt
  have hxy : ((nearHalfPi : ℚ) : ℝ) < (halfPi : ℚ) := by
    unfold nearHalfPi halfPi; norm_num
  have hx : (1.5707963199 : ℝ) ≤ (nearHalfPi : ℚ) := by unfold nearHalfPi; norm_num
  have hy1 : (1.5707963199 : ℝ) ≤ (halfPi : ℚ) := by linarith
  have e1 := getSolarIrradiation64_near_half_pi _ hx (hxy.trans hy)
  have e2 := getSolarIrradiation64_near_half_pi _ hy1 hy
  refine ⟨by linarith, hxy, hy.le, e1, e2, ?_⟩
  rw [e1, e2]
  exact lt_irrefl _

/-- Claim C6: `getAverageDailyIrradiation` is the arithmetic mean of exactly 24 samples,
one per integer hour 0..23, each the irradiation at the elevation computed from the
latitude, the declination of the date's day of the year, and the hour angle taken with
minute 0 and timezone 0. -/
theorem getAverageDailyIrradiation_mean (tza : Int → Int) (latitude longitude : ℝ)
    (date : JSDate) :
    getAverageDailyIrradiation tza latitude longitude date
      = (1 / 24) * ∑ h in Finset.range 24,
          getSolarIrradiation
            (getSolarElevationAngle latitude (getSolarDeclination (getDayOfYear tza date))
              (getHourAngle h 0 longitude 0)) := by
  rw [daily_eq_sum]
  unfold hourSample
  ring

/-- Claim C7, amended: for a year from -271000 to 275000 (inside the `Date` range), a
month index 0..11 and a host zone with offsets under a day in which local midnight of
each day of the month exists, `daysInMonth` is the Gregorian length N of the month of
the year the `Date` lies in (the year argument, or 1900 + year for an argument 0..99),
N is positive, every daily average is a number, and the monthly average is the sum of
the daily averages over `new Date(year, month, d)`, d = 1..N, divided by N. -/
theorem getAverageMonthlyIrradiationHost_mean (z : Zone) (latitude longitude : ℝ) (year : Int)
    (m : Nat) (hm : m < 12) (hy1 : -271000 ≤ year) (hy2 : year ≤ 275000) (hz : z.Bounded)
    (hx : ∀ d : Nat, 1 ≤ d → d ≤ calendarDaysInMonth (fullYear year) m →
      MidnightExists z (fullYear year) m d) :
    daysInMonthHost z year m = some ((calendarDaysInMonth (fullYear year) m : Nat) : Int) ∧
    0 < calendarDaysInMonth (fullYear year) m ∧
    (¬ (0 ≤ year ∧ year ≤ 99) → fullYear year = year) ∧
    (0 ≤ year ∧ year ≤ 99 → fullYear year = 1900 + year) ∧
    (∀ d : Nat, 1 ≤ d → d ≤ calendarDaysInMonth (fullYear year) m →
      (getAverageDailyIrradiationHost z latitude longitude (newDateObject z year m d)).isSome = true) ∧
    getAverageMonthlyIrradiationHost z latitude longitude year m
      = some ((1 / (calendarDaysInMonth (fullYear year) m : ℝ)) *
          ∑ d in Finset.Icc 1 (calendarDaysInMonth (fullYear year) m),
            (getAverageDailyIrradiationHost z latitude longitude
              (newDateObject z year m (d : Nat))).getD 0) := by
  have hpos := calendarDaysInMonth_pos (fullYear year) m
  refine ⟨daysInMonthHost_eq z hz year hy1 hy2 m hm (hx _ hpos (le_refl _)), hpos, ?_, ?_, ?_, ?_⟩
  · intro h; unfold fullYear; rw [if_neg h]
  · intro h; unfold fullYear; rw [if_pos h]
  · intro d hd1 hd
    exact dailyHost_isSome z hz latitude longitude year hy1 hy2 m d hm hd1 hd (hx d hd1 hd)
  · rw [monthlyHost_eq_mean z hz latitude longitude year hy1 hy2 m hm hx]
    congr 1
    ring

theorem getAverageMonthlyIrradiationHost_mean_witness :
    daysInMonthHost newYork2024 2024 (2 : Nat) = some ((31 : Nat) : Int) ∧
    getAverageMonthlyIrradiationHost newYork2024 40 (-74) 2024 (2 : Nat)
      = some ((1 / ((31 : Nat) : ℝ)) * ∑ d in Finset.Icc 1 31,
          (getAverageDailyIrradiationHost newYork2024 40 (-74)
            (newDateObject newYork2024 2024 (2 : Nat) (d : Nat))).getD 0) :=
  have h := getAverageMonthlyIrradiationHost_mean newYork2024 40 (-74) 2024 2 (by decide)
    (by decide) (by decide) (oneHourDst_bounded _ _ _ (by decide) (by decide))
    newYork2024_march_midnights
  ⟨h.1, h.2.2.2.2.2⟩

/-- Claim C7, counterexample: for year 0 and February `daysInMonth` is 28 (the `Date`
lies in 1900) while the Gregorian rule gives 29 for year 0; for year 300000 `daysInMonth`
and the monthly average are `NaN`; and in America/Havana, where daylight saving time
starts at local midnight of 10 March 2024, the monthly average of March 2024 at
latitude 0, longitude 0 is not the mean of the daily averages over
`new Date(2024, 2, d)`, d = 1..31. -/
theorem getAverageMonthlyIrradiation_mean_fails :
    (daysInMonthHost utcZone 0 1 = some 28 ∧ calendarDaysInMonth 0 1 = 29) ∧
    (daysInMonthHost utcZone 300000 0 = none ∧
      getAverageMonthlyIrradiationHost utcZone 0 0 300000 0 = none) ∧
    (daysInMonthHost havana2024 2024 2 = some 31 ∧
      getAverageMonthlyIrradiationHost havana2024 0 0 2024 2
        ≠ some ((1 / 31) * ∑ d in Finset.Icc 1 31,
            (getAverageDailyIrradiationHost havana2024 0 0
              (newDateObject havana2024 2024 2 (d : Nat))).getD 0)) := by
  refine ⟨⟨by decide, by decide⟩, ⟨by decide, ?_⟩, havana_daysInMonth, ?_⟩
  · have h : daysInMonthHost utcZone 300000 0 = none := by decide
    unfold getAverageMonthlyIrradiationHost
    simp only [h]
  · rw [havana_monthly, havana_claimed_mean]
    intro h
    have h' := Option.some.inj h
    have hc := cos_declination_70_lt_91
    have hK : 0 < equatorTotal / 24 := div_pos equatorTotal_pos (by norm_num)
    have hG : dailyValue 0 0 70 < dailyValue 0 0 91 := by
      rw [dailyValue_equator, dailyValue_equator]
      exact mul_lt_mul_of_pos_right hc hK
    simp only [List.range', List.map_cons, List.map_nil, List.sum_cons, List.sum_nil,
      List.cons_append, List.nil_append, Nat.reduceAdd] at h'
    push_cast at h'
    linarith

/-- Claim C8: for 2024 at longitude 0, in any host zone whose offset stays under a day,
the June and December records at latitude 0 are positive and differ by at most 5% of
either, and at latitude 60 the June record exceeds the December record, by more than
half of it. -/
theorem june_december_2024 (tza : Int → Int) (hz : BoundedZone tza) :
    ∃ j0 d0 j60 d60 : ℝ,
      (getMonthlyIrradiationForYear tza 0 0 2024)[5]? = some ⟨"June", j0⟩ ∧
      (getMonthlyIrradiationForYear tza 0 0 2024)[11]? = some ⟨"December", d0⟩ ∧
      (getMonthlyIrradiationForYear tza 60 0 2024)[5]? = some ⟨"June", j60⟩ ∧
      (getMonthlyIrradiationForYear tza 60 0 2024)[11]? = some ⟨"December", d60⟩ ∧
      0 < j0 ∧ 0 < d0 ∧ |j0 - d0| ≤ 0.05 * j0 ∧ |j0 - d0| ≤ 0.05 * d0 ∧
      d60 < j60 ∧ 1.5 * d60 < j60 := by
  refine ⟨getAverageMonthlyIrradiation tza 0 0 2024 5,
    getAverageMonthlyIrradiation tza 0 0 2024 11,
    getAverageMonthlyIrradiation tza 60 0 2024 5,
    getAverageMonthlyIrradiation tza 60 0 2024 11, ?_, ?_, ?_, ?_, ?_⟩
  · simp [monthlyData_eq, monthNames]
  · simp [monthlyData_eq, monthNames]
  · simp [monthlyData_eq, monthNames]
  · simp [monthlyData_eq, monthNames]
  · have hj := equator_june_2024 tza hz
    have hd := equator_december_2024 tza hz
    have h1 := sixty_june_2024 tza hz
    have h2 := sixty_december_2024 tza hz
    have hK : 0 < equatorTotal / 24 := div_pos equatorTotal_pos (by norm_num)
    generalize getAverageMonthlyIrradiation tza 0 0 2024 5 = a at hj ⊢
    generalize getAverageMonthlyIrradiation tza 0 0 2024 11 = b at hd ⊢
    generalize getAverageMonthlyIrradiation tza 60 0 2024 5 = c at h1 ⊢
    generalize getAverageMonthlyIrradiation tza 60 0 2024 11 = e at h2 ⊢
    generalize equatorTotal / 24 = k at hj hd hK
    obtain ⟨hj1, hj2⟩ := hj
    obtain ⟨hd1, hd2⟩ := hd
    refine ⟨by linarith, by linarith, ?_, ?_, by linarith, by linarith⟩
    · rw [abs_le]; constructor <;> linarith
    · rw [abs_le]; constructor <;> linarith

theorem june_december_2024_witness :
    BoundedZone (fun _ => 0) ∧
    ∃ j0 d0 j60 d60 : ℝ,
      (getMonthlyIrradiationForYear (fun _ => 0) 0 0 2024)[5]? = some ⟨"June", j0⟩ ∧
      (getMonthlyIrradiationForYear (fun _ => 0) 0 0 2024)[11]? = some ⟨"December", d0⟩ ∧
      (getMonthlyIrradiationForYear (fun _ => 0) 60 0 2024)[5]? = some ⟨"June", j60⟩ ∧
      (getMonthlyIrradiationForYear (fun _ => 0) 60 0 2024)[11]? = some ⟨"December", d60⟩ ∧
      0 < j0 ∧ 0 < d0 ∧ |j0 - d0| ≤ 0.05 * j0 ∧ |j0 - d0| ≤ 0.05 * d0 ∧
      d60 < j60 ∧ 1.5 * d60 < j60 :=
  ⟨boundedZone_const 0 (by decide) (by decide),
    june_december_2024 (fun _ => 0) (boundedZone_const 0 (by decide) (by decide))⟩

/-- Claim C9: for every integer day of the year `d`, `getSolarDeclination d` equals
`(23.45 * pi / 180) * sin ((360 / 365) * (d - 81) * pi / 180)`; at `d = 81` it is 0,
hence within 1e-6 of 0. -/
theorem getSolarDeclination_formula (d : Int) :
    getSolarDeclination d
      = (23.45 * Real.pi / 180) * Real.sin ((360 / 365) * ((d : ℝ) - 81) * Real.pi / 180) ∧
    getSolarDeclination (81 : Int) = 0 ∧
    |getSolarDeclination (81 : Int)| < 1e-6 := by
  have h81 : getSolarDeclination (81 : Int) = 0 := by
    unfold getSolarDeclination
    simp
  refine ⟨?_, h81, ?_⟩
  · unfold getSolarDeclination DEG_TO_RAD
    ring_nf
  · rw [h81]; norm_num

/-- Claim C10: shifting the longitude by a whole number `k` of 15-degree steps leaves
`getAverageDailyIrradiation` unchanged; a shift by 15 degrees moves the hour angle of
hour `h` to that of hour `h + 1`, and the sample at hour 24 is the sample at hour 0. -/
theorem getAverageDailyIrradiation_longitude_shift (tza : Int → Int)
    (latitude longitude : ℝ) (date : JSDate) (k : Int) :
    (∀ h : ℝ, getHourAngle h 0 (longitude + 15) 0 = getHourAngle (h + 1) 0 longitude 0) ∧
    (∀ δ : ℝ, getSolarIrradiation (getSolarElevationAngle latitude δ
        (getHourAngle 24 0 longitude 0))
      = getSolarIrradiation (getSolarElevationAngle latitude δ
        (getHourAngle 0 0 longitude 0))) ∧
    getAverageDailyIrradiation tza latitude (longitude + 15 * k) date
      = getAverageDailyIrradiation tza latitude longitude date := by
  refine ⟨?_, ?_, ?_⟩
  · intro h
    have := getHourAngle_shift h longitude 1
    simpa using this
  · intro δ
    have := shiftedSample_periodic latitude longitude δ 0
    simpa [shiftedSample] using this
  · rw [daily_eq_sum, daily_eq_sum]
    congr 1
    simp only [hourSample_shift]
    rw [sum_shift _ (shiftedSample_periodic latitude longitude _) k]
    apply Finset.sum_congr rfl
    intro h _
    have := hourSample_shift latitude longitude
      (getSolarDeclination (getDayOfYear tza date)) 0 h
    simp only [Int.cast_zero, mul_zero, add_zero] at this
    rw [this]

end SolarViz
